import Mathlib

set_option maxHeartbeats 1000000

/-!
Verification of the forum backend in src/server.js.  The file embeds the two
persistence variants of the server (the sqlite variant on lines 1-281 and the
key-value variant on lines 282-487) as pure Lean functions over explicit store
states, and proves or refutes the frozen claims about them.

Modelling conventions:
* Timestamps (created_at, deleted_at, Date.now()) are natural numbers; the
  handlers take the current time as an explicit argument where the source
  calls nowIso() or Date.now().
* Optional JSON request fields are Option String / Option Nat; the JS idiom
  (x || "").trim() is orEmpty followed by jsTrim.
* JS String.prototype.trim and toLowerCase, and the sqlite NOCASE collation,
  are modelled character-wise (jsTrim, jsLower); both agree on ASCII data.
* The library call new URL(u) inside isProbablyHttpUrl is not repository code;
  the handlers take the protocol check as an opaque parameter urlOk, keeping
  only the guard structure of the source (empty string short-circuits false).
* The sqlite table scan order and the key-value store list order are
  determinised as the insertion order of the row list, and key-value list is
  id-ascending (the store returns keys lexicographically and Date.now() ids
  have a fixed digit width).  JS Array.prototype.sort and the SQL ORDER BY are
  modelled by a stable insertion sort parameterised by the comparator.
-/

namespace Forum

/-- JS truthiness of the value (x || ""), for an optional string field. -/
def orEmpty : Option String → String
  | none => ""
  | some s => s

/-- JS String.prototype.trim, character-wise so that it evaluates in the kernel. -/
def jsTrim (s : String) : String :=
  ⟨((s.data.dropWhile Char.isWhitespace).reverse.dropWhile Char.isWhitespace).reverse⟩

/-- JS String.prototype.toLowerCase restricted to ASCII, which also models the
sqlite NOCASE collation (both fold only ASCII letters on the data at hand). -/
def jsLower (s : String) : String :=
  ⟨s.data.map Char.toLower⟩

/-- JS (s || null): an empty string is stored as null. -/
def strToOpt (s : String) : Option String :=
  if s = "" then none else some s

/-- JS numeric truthiness of an optional number: null, undefined and 0 are falsy. -/
def numTruthy : Option Nat → Bool
  | none => false
  | some i => !(i == 0)

/-- isProbablyHttpUrl from the source: false on a falsy (empty) string,
otherwise the result of parsing with new URL and checking the protocol,
which is the opaque parameter urlOk. -/
def isProbablyHttpUrl (urlOk : String → Bool) (u : String) : Bool :=
  if u = "" then false else urlOk u

/-- A personas row (sqlite) or a persona:id record (key-value variant). -/
structure Persona where
  id : Nat
  name : String
  avatar_url : Option String
  bio : Option String
  creator : Option String
  deleted_at : Option Nat
deriving Repr, DecidableEq

/-- A posts row (sqlite) or a post:id record (key-value variant). -/
structure Post where
  id : Nat
  persona_id : Option Nat
  content : String
  image_url : Option String
  created_at : Nat
  deleted_at : Option Nat
deriving Repr, DecidableEq

/-- A comments row (sqlite) or a comment_post:postId:id record (key-value variant). -/
structure Comment where
  id : Nat
  post_id : Nat
  persona_id : Option Nat
  content : String
  reply_to_comment_id : Option Nat
  created_at : Nat
  deleted_at : Option Nat
deriving Repr, DecidableEq

/-- A row of the GET /api/posts listing: the post columns joined with the
resolved persona display fields and the reply count. -/
structure PostView where
  id : Nat
  content : String
  image_url : Option String
  created_at : Nat
  deleted_at : Option Nat
  persona_id : Option Nat
  persona_name : String
  persona_avatar_url : Option String
  persona_deleted : Bool
  reply_count : Nat
deriving Repr, DecidableEq

/-- The post part of the GET /api/posts/:id detail: same shape as the listing
row but without a reply count (neither variant computes one on the detail). -/
structure PostDetail where
  id : Nat
  content : String
  image_url : Option String
  created_at : Nat
  deleted_at : Option Nat
  persona_id : Option Nat
  persona_name : String
  persona_avatar_url : Option String
  persona_deleted : Bool
deriving Repr, DecidableEq

/-- A comment of the GET /api/posts/:id detail, annotated with the resolved
persona display fields. -/
structure CommentView where
  id : Nat
  post_id : Nat
  content : String
  created_at : Nat
  reply_to_comment_id : Option Nat
  persona_id : Option Nat
  persona_name : String
  persona_avatar_url : Option String
  persona_deleted : Bool
deriving Repr, DecidableEq

/-- Resolve a persona by id, as the sqlite LEFT JOIN per.id = p.persona_id
does: a NULL persona_id joins no row. -/
def personaOf (personas : List Persona) : Option Nat → Option Persona
  | none => none
  | some i => personas.find? (fun q => q.id == i)

/-- Resolve a persona by id, as getPersona of the key-value variant does:
the guard if (!id) return null also rejects the id 0. -/
def personaOfKv (personas : List Persona) (pid : Option Nat) : Option Persona :=
  if numTruthy pid then personas.find? (fun q => q.id == pid.getD 0) else none

/-- The constant placeholder name, the string meaning deleted persona. -/
def placeholderName : String := "已删除人设"

/-- The correlated subquery of the sqlite listing: the number of comments of
the post whose deleted_at is null. -/
def liveCommentCount (comments : List Comment) (postId : Nat) : Nat :=
  (comments.filter (fun c => c.post_id == postId && c.deleted_at.isNone)).length

/-! ## A stable insertion sort, modelling JS Array.prototype.sort and ORDER BY -/

/-- Insert x into l, after every element strictly before it under le and
before everything else; used by the stable sort. -/
def insertLe (le : α → α → Bool) (x : α) : List α → List α
  | [] => [x]
  | y :: ys => if le y x = true ∧ le x y = false then y :: insertLe le x ys else x :: y :: ys

/-- Stable sort by the total preorder le: equal elements keep their order. -/
def sortByLe (le : α → α → Bool) : List α → List α
  | [] => []
  | x :: xs => insertLe le x (sortByLe le xs)

/-! ## The sqlite variant (src/server.js lines 1-281) -/

/-- The sqlite store: the three tables plus the AUTOINCREMENT counters. -/
structure SqliteDB where
  personas : List Persona
  posts : List Post
  comments : List Comment
  nextPersonaId : Nat
  nextPostId : Nat
  nextCommentId : Nat
deriving Repr, DecidableEq

/-- The freshly created sqlite schema. -/
def sqliteEmpty : SqliteDB := ⟨[], [], [], 1, 1, 1⟩

/-- POST /api/personas of the sqlite variant. -/
def sqlitePostPersonas (urlOk : String → Bool) (db : SqliteDB)
    (name avatar_url bio creator : Option String) : Except String (SqliteDB × Nat) :=
  let nm := jsTrim (orEmpty name)
  let avatar := jsTrim (orEmpty avatar_url)
  let bi := jsTrim (orEmpty bio)
  let cr := jsTrim (orEmpty creator)
  if nm = "" then .error "NAME_REQUIRED"
  else if nm = "未命名" then .error "NAME_RESERVED"
  else if avatar ≠ "" ∧ isProbablyHttpUrl urlOk avatar = false then .error "AVATAR_URL_INVALID"
  else if db.personas.any (fun p => p.name == nm) then .error "NAME_EXISTS"
  else
    let id := db.nextPersonaId
    let p : Persona := ⟨id, nm, strToOpt avatar, strToOpt bi, strToOpt cr, none⟩
    .ok ({ db with personas := db.personas ++ [p], nextPersonaId := id + 1 }, id)

/-- DELETE /api/personas/:id of the sqlite variant. -/
def sqliteDeletePersona (db : SqliteDB) (id : Nat) (now : Nat) : Except String SqliteDB :=
  match db.personas.find? (fun p => p.id == id) with
  | none => .error "NOT_FOUND"
  | some p =>
    if p.deleted_at.isSome then .ok db
    else .ok { db with
      personas := db.personas.map (fun q => if q.id = id then { q with deleted_at := some now } else q) }

/-- The SELECT columns of the sqlite listing, for one post row. -/
def annotatePostSql (db : SqliteDB) (p : Post) : PostView :=
  let per := personaOf db.personas p.persona_id
  { id := p.id, content := p.content, image_url := p.image_url,
    created_at := p.created_at, deleted_at := p.deleted_at, persona_id := p.persona_id,
    persona_name := match per with
      | some q => q.name
      | none => placeholderName,
    persona_avatar_url := match per with
      | some q => if q.deleted_at.isSome then none else q.avatar_url
      | none => none,
    persona_deleted := match per with
      | some q => q.deleted_at.isSome
      | none => true,
    reply_count := liveCommentCount db.comments p.id }

/-- The comparator of ORDER BY p.created_at DESC: a may come before b. -/
def postNewLe (a b : PostView) : Bool :=
  decide (b.created_at ≤ a.created_at)

/-- The comparator of ORDER BY reply_count DESC, p.created_at DESC. -/
def postHotLe (a b : PostView) : Bool :=
  decide (b.reply_count < a.reply_count ∨ (b.reply_count = a.reply_count ∧ b.created_at ≤ a.created_at))

/-- GET /api/posts of the sqlite variant. -/
def sqliteGetPosts (db : SqliteDB) (sort : String) : List PostView :=
  let rows := (db.posts.filter (fun p => p.deleted_at.isNone)).map (annotatePostSql db)
  if sort = "hot" then sortByLe postHotLe rows else sortByLe postNewLe rows

/-- The SELECT columns of the sqlite detail, for the post row. -/
def annotateDetailSql (personas : List Persona) (p : Post) : PostDetail :=
  let per := personaOf personas p.persona_id
  { id := p.id, content := p.content, image_url := p.image_url,
    created_at := p.created_at, deleted_at := p.deleted_at, persona_id := p.persona_id,
    persona_name := match per with
      | some q => q.name
      | none => placeholderName,
    persona_avatar_url := match per with
      | some q => if q.deleted_at.isSome then none else q.avatar_url
      | none => none,
    persona_deleted := match per with
      | some q => q.deleted_at.isSome
      | none => true }

/-- The SELECT columns of the sqlite detail, for one comment row. -/
def annotateCommentSql (personas : List Persona) (c : Comment) : CommentView :=
  let per := personaOf personas c.persona_id
  { id := c.id, post_id := c.post_id, content := c.content,
    created_at := c.created_at, reply_to_comment_id := c.reply_to_comment_id,
    persona_id := c.persona_id,
    persona_name := match per with
      | some q => q.name
      | none => placeholderName,
    persona_avatar_url := match per with
      | some q => if q.deleted_at.isSome then none else q.avatar_url
      | none => none,
    persona_deleted := match per with
      | some q => q.deleted_at.isSome
      | none => true }

/-- The comparator of ORDER BY c.created_at ASC, c.id ASC. -/
def commentLexLe (a b : CommentView) : Bool :=
  decide (a.created_at < b.created_at ∨ (a.created_at = b.created_at ∧ a.id ≤ b.id))

/-- GET /api/posts/:id of the sqlite variant. -/
def sqliteGetPost (db : SqliteDB) (id : Nat) : Except String (PostDetail × List CommentView) :=
  match db.posts.find? (fun p => p.id == id) with
  | none => .error "NOT_FOUND"
  | some p =>
    if p.deleted_at.isSome then .error "NOT_FOUND"
    else
      let cs := (db.comments.filter (fun c => c.post_id == id && c.deleted_at.isNone)).map
        (annotateCommentSql db.personas)
      .ok (annotateDetailSql db.personas p, sortByLe commentLexLe cs)

/-- POST /api/posts of the sqlite variant. -/
def sqlitePostPosts (urlOk : String → Bool) (db : SqliteDB)
    (persona_name content image_url : Option String) (now : Nat) : Except String (SqliteDB × Nat) :=
  let pn := jsTrim (orEmpty persona_name)
  let ct := jsTrim (orEmpty content)
  let img := jsTrim (orEmpty image_url)
  if pn = "" then .error "PERSONA_REQUIRED"
  else if ct = "" then .error "CONTENT_REQUIRED"
  else if img ≠ "" ∧ isProbablyHttpUrl urlOk img = false then .error "IMAGE_URL_INVALID"
  else
    match db.personas.find? (fun p => jsLower p.name == jsLower pn) with
    | none => .error "PERSONA_NOT_FOUND"
    | some per =>
      if per.deleted_at.isSome then .error "PERSONA_NOT_FOUND"
      else
        let id := db.nextPostId
        let posts2 := db.posts ++ [⟨id, some per.id, ct, strToOpt img, now, none⟩]
        .ok ({ db with posts := posts2, nextPostId := id + 1 }, id)

/-- DELETE /api/posts/:id of the sqlite variant: the two UPDATE statements run
inside db.transaction, so they are one step of the model. -/
def sqliteDeletePost (db : SqliteDB) (id : Nat) (now : Nat) : Except String SqliteDB :=
  match db.posts.find? (fun p => p.id == id) with
  | none => .error "NOT_FOUND"
  | some p =>
    if p.deleted_at.isSome then .ok db
    else .ok { db with
      posts := db.posts.map (fun q => if q.id = id then { q with deleted_at := some now } else q),
      comments := db.comments.map (fun c => if c.post_id = id then { c with deleted_at := some now } else c) }

/-- POST /api/comments of the sqlite variant. -/
def sqlitePostComments (db : SqliteDB) (post_id : Option Nat)
    (persona_name content : Option String) (reply_to : Option Nat) (now : Nat) :
    Except String (SqliteDB × Nat) :=
  match post_id with
  | none => .error "POST_ID_REQUIRED"
  | some postId =>
    let pn := jsTrim (orEmpty persona_name)
    let ct := jsTrim (orEmpty content)
    if pn = "" then .error "PERSONA_REQUIRED"
    else if ct = "" then .error "CONTENT_REQUIRED"
    else
      match db.posts.find? (fun p => p.id == postId) with
      | none => .error "POST_NOT_FOUND"
      | some post =>
        if post.deleted_at.isSome then .error "POST_NOT_FOUND"
        else
          match db.personas.find? (fun p => jsLower p.name == jsLower pn) with
          | none => .error "PERSONA_NOT_FOUND"
          | some per =>
            if per.deleted_at.isSome then .error "PERSONA_NOT_FOUND"
            else
              let replyCheck : Except String Unit :=
                match reply_to with
                | none => .ok ()
                | some r =>
                  match db.comments.find? (fun c => c.id == r) with
                  | none => .error "REPLY_TARGET_INVALID"
                  | some parent =>
                    if parent.deleted_at.isSome ∨ parent.post_id ≠ postId then
                      .error "REPLY_TARGET_INVALID"
                    else .ok ()
              match replyCheck with
              | .error e => .error e
              | .ok _ =>
                let id := db.nextCommentId
                .ok ({ db with
                  comments := db.comments ++ [⟨id, postId, some per.id, ct, reply_to, now, none⟩],
                  nextCommentId := id + 1 }, id)

/-! ## The key-value variant (src/server.js lines 282-487) -/

/-- The key-value store: persona:id, persona_name:lower, post:id and
comment_post:postId:id records. -/
structure KvDB where
  personas : List Persona
  personaNames : List (String × Nat)
  posts : List Post
  comments : List Comment
deriving Repr, DecidableEq

/-- The empty key-value store. -/
def kvEmpty : KvDB := ⟨[], [], [], []⟩

/-- db.set on a persona:id key: replace the record of that id or add it. -/
def kvSetPersona (l : List Persona) (p : Persona) : List Persona :=
  if l.any (fun q => q.id == p.id) then l.map (fun q => if q.id = p.id then p else q) else l ++ [p]

/-- db.set on a persona_name: key. -/
def kvSetName (l : List (String × Nat)) (k : String) (v : Nat) : List (String × Nat) :=
  if l.any (fun e => e.1 == k) then l.map (fun e => if e.1 = k then (k, v) else e) else l ++ [(k, v)]

/-- db.get on a persona_name: key. -/
def kvGetName (l : List (String × Nat)) (k : String) : Option Nat :=
  (l.find? (fun e => e.1 == k)).map (fun e => e.2)

/-- db.delete on a persona_name: key. -/
def kvDelName (l : List (String × Nat)) (k : String) : List (String × Nat) :=
  l.filter (fun e => !(e.1 == k))

/-- db.set on a post:id key. -/
def kvSetPost (l : List Post) (p : Post) : List Post :=
  if l.any (fun q => q.id == p.id) then l.map (fun q => if q.id = p.id then p else q) else l ++ [p]

/-- db.set on a comment_post:postId:id key. -/
def kvSetComment (l : List Comment) (c : Comment) : List Comment :=
  if l.any (fun d => d.post_id == c.post_id && d.id == c.id) then
    l.map (fun d => if d.post_id = c.post_id ∧ d.id = c.id then c else d)
  else l ++ [c]

/-- POST /api/personas of the key-value variant; now is Date.now(). -/
def kvPostPersonas (urlOk : String → Bool) (db : KvDB)
    (name avatar_url bio creator : Option String) (now : Nat) : Except String (KvDB × Nat) :=
  let nm := jsTrim (orEmpty name)
  if nm = "" then .error "NAME_REQUIRED"
  else if nm = "未命名" then .error "NAME_RESERVED"
  else if numTruthy (kvGetName db.personaNames (jsLower nm)) then .error "NAME_EXISTS"
  else
    let p : Persona := ⟨now, nm, strToOpt (jsTrim (orEmpty avatar_url)),
      strToOpt (jsTrim (orEmpty bio)), strToOpt (jsTrim (orEmpty creator)), none⟩
    let ps2 := kvSetPersona db.personas p
    let names2 := kvSetName db.personaNames (jsLower nm) now
    match p.avatar_url with
    | some a =>
      if isProbablyHttpUrl urlOk a = false then .error "AVATAR_URL_INVALID"
      else .ok ({ db with personas := ps2, personaNames := names2 }, now)
    | none =>
      .ok ({ db with personas := ps2, personaNames := names2 }, now)

/-- DELETE /api/personas/:id of the key-value variant: it re-stamps
deleted_at on every call and drops the persona_name: key. -/
def kvDeletePersona (db : KvDB) (id : Nat) (now : Nat) : Except String KvDB :=
  match db.personas.find? (fun p => p.id == id) with
  | none => .error "NOT_FOUND"
  | some p =>
    let ps2 := kvSetPersona db.personas { p with deleted_at := some now }
    let names2 := kvDelName db.personaNames (jsLower p.name)
    .ok { db with personas := ps2, personaNames := names2 }

/-- The comparator of the id-ascending key order of db.list on post: keys. -/
def postIdLe (a b : Post) : Bool := decide (a.id ≤ b.id)

/-- The comparator of the id-ascending key order of db.list on comment keys. -/
def commentIdLe (a b : Comment) : Bool := decide (a.id ≤ b.id)

/-- The in-place annotation of one listed post by the key-value variant;
note that reply_count is the number of comment keys of the post, with no
filter on deleted_at. -/
def annotatePostKv (db : KvDB) (p : Post) : PostView :=
  let per := personaOfKv db.personas p.persona_id
  { id := p.id, content := p.content, image_url := p.image_url,
    created_at := p.created_at, deleted_at := p.deleted_at, persona_id := p.persona_id,
    persona_name := match per with
      | some q => if q.name = "" then placeholderName else q.name
      | none => placeholderName,
    persona_avatar_url := match per with
      | some q => if q.deleted_at.isSome then none else q.avatar_url
      | none => none,
    persona_deleted := match per with
      | some q => q.deleted_at.isSome
      | none => true,
    reply_count := (db.comments.filter (fun c => c.post_id == p.id)).length }

/-- GET /api/posts of the key-value variant. -/
def kvGetPosts (db : KvDB) (sort : String) : List PostView :=
  let base := (sortByLe postIdLe db.posts).filter (fun p => p.deleted_at.isNone)
  let rows := base.map (annotatePostKv db)
  if sort = "hot" then sortByLe postHotLe rows else sortByLe postNewLe rows

/-- The annotation of the detail post by the key-value variant: this path
reads persona:id directly, without the falsy-id guard of the listing. -/
def annotateDetailKv (db : KvDB) (p : Post) : PostDetail :=
  let per := personaOf db.personas p.persona_id
  { id := p.id, content := p.content, image_url := p.image_url,
    created_at := p.created_at, deleted_at := p.deleted_at, persona_id := p.persona_id,
    persona_name := match per with
      | some q => if q.name = "" then placeholderName else q.name
      | none => placeholderName,
    persona_avatar_url := match per with
      | some q => if q.deleted_at.isSome then none else q.avatar_url
      | none => none,
    persona_deleted := match per with
      | some q => q.deleted_at.isSome
      | none => true }

/-- The annotation of one detail comment by the key-value variant. -/
def annotateCommentKv (personas : List Persona) (c : Comment) : CommentView :=
  let per := personaOfKv personas c.persona_id
  { id := c.id, post_id := c.post_id, content := c.content,
    created_at := c.created_at, reply_to_comment_id := c.reply_to_comment_id,
    persona_id := c.persona_id,
    persona_name := match per with
      | some q => if q.name = "" then placeholderName else q.name
      | none => placeholderName,
    persona_avatar_url := match per with
      | some q => if q.deleted_at.isSome then none else q.avatar_url
      | none => none,
    persona_deleted := match per with
      | some q => q.deleted_at.isSome
      | none => true }

/-- The comparator of the key-value detail sort: created_at only. -/
def kvCommentNewLe (a b : CommentView) : Bool :=
  decide (a.created_at ≤ b.created_at)

/-- GET /api/posts/:id of the key-value variant. -/
def kvGetPost (db : KvDB) (id : Nat) : Except String (PostDetail × List CommentView) :=
  match db.posts.find? (fun p => p.id == id) with
  | none => .error "NOT_FOUND"
  | some post =>
    if post.deleted_at.isSome then .error "NOT_FOUND"
    else
      let cs := ((sortByLe commentIdLe db.comments).filter (fun c => c.post_id == id)).filter
        (fun c => c.deleted_at.isNone)
      .ok (annotateDetailKv db post, sortByLe kvCommentNewLe (cs.map (annotateCommentKv db.personas)))

/-- POST /api/posts of the key-value variant; id and created_at are Date.now(). -/
def kvPostPosts (urlOk : String → Bool) (db : KvDB)
    (persona_name content image_url : Option String) (now : Nat) : Except String (KvDB × Nat) :=
  let pn := jsTrim (orEmpty persona_name)
  let ct := jsTrim (orEmpty content)
  let img := jsTrim (orEmpty image_url)
  if pn = "" ∨ ct = "" then .error "MISSING_FIELDS"
  else if img ≠ "" ∧ isProbablyHttpUrl urlOk img = false then .error "IMAGE_URL_INVALID"
  else
    let personaId := kvGetName db.personaNames (jsLower pn)
    if numTruthy personaId = false then .error "PERSONA_NOT_FOUND"
    else .ok ({ db with posts := kvSetPost db.posts ⟨now, personaId, ct, strToOpt img, now, none⟩ }, now)

/-- DELETE /api/posts/:id of the key-value variant: it marks the post and then
physically deletes every comment_post:id: key, one db.delete at a time. -/
def kvDeletePost (db : KvDB) (id : Nat) (now : Nat) : Except String KvDB :=
  match db.posts.find? (fun p => p.id == id) with
  | none => .error "NOT_FOUND"
  | some p =>
    let posts2 := kvSetPost db.posts { p with deleted_at := some now }
    let comments2 := db.comments.filter (fun c => !(c.post_id == id))
    .ok { db with posts := posts2, comments := comments2 }

/-- POST /api/comments of the key-value variant: note the absence of any
check of reply_to_comment_id. -/
def kvPostComments (db : KvDB) (post_id : Option Nat)
    (persona_name content : Option String) (reply_to : Option Nat) (now : Nat) :
    Except String (KvDB × Nat) :=
  let pn := jsTrim (orEmpty persona_name)
  let ct := jsTrim (orEmpty content)
  if numTruthy post_id = false ∨ pn = "" ∨ ct = "" then .error "MISSING_FIELDS"
  else
    let postId := post_id.getD 0
    match db.posts.find? (fun p => p.id == postId) with
    | none => .error "POST_NOT_FOUND"
    | some post =>
      if post.deleted_at.isSome then .error "POST_NOT_FOUND"
      else
        let personaId := kvGetName db.personaNames (jsLower pn)
        if numTruthy personaId = false then .error "PERSONA_NOT_FOUND"
        else .ok ({ db with
          comments := kvSetComment db.comments ⟨now, postId, personaId, ct, reply_to, now, none⟩ }, now)

/-! ## Lemmas about the stable sort -/

theorem insertLe_perm (le : α → α → Bool) (x : α) (l : List α) :
    List.Perm (insertLe le x l) (x :: l) := by
  induction l with
  | nil => simp [insertLe]
  | cons y ys ih =>
    by_cases h : le y x = true ∧ le x y = false
    · simp only [insertLe, if_pos h]
      exact (ih.cons y).trans (List.Perm.swap x y ys)
    · simp only [insertLe, if_neg h]
      exact List.Perm.refl _

theorem sortByLe_perm (le : α → α → Bool) (l : List α) :
    List.Perm (sortByLe le l) l := by
  induction l with
  | nil => exact List.Perm.refl _
  | cons x xs ih => exact (insertLe_perm le x (sortByLe le xs)).trans (ih.cons x)

theorem mem_sortByLe {le : α → α → Bool} {a : α} {l : List α} :
    a ∈ sortByLe le l ↔ a ∈ l :=
  (sortByLe_perm le l).mem_iff

theorem pairwise_insertLe (le : α → α → Bool)
    (htot : ∀ a b, le a b = true ∨ le b a = true)
    (htr : ∀ a b c, le a b = true → le b c = true → le a c = true)
    (x : α) (l : List α) (h : l.Pairwise (fun a b => le a b = true)) :
    (insertLe le x l).Pairwise (fun a b => le a b = true) := by
  induction l with
  | nil => simp [insertLe]
  | cons y ys ih =>
    cases h with
    | cons hy hys =>
      by_cases hc : le y x = true ∧ le x y = false
      · simp only [insertLe, if_pos hc]
        refine List.Pairwise.cons ?_ (ih hys)
        intro z hz
        rcases List.mem_cons.mp ((insertLe_perm le x ys).mem_iff.mp hz) with rfl | hz'
        · exact hc.1
        · exact hy z hz'
      · have hxy : le x y = true := by
          rcases htot x y with h2 | h2
          · exact h2
          · by_contra h1
            exact hc ⟨h2, by simpa using h1⟩
        simp only [insertLe, if_neg hc]
        refine List.Pairwise.cons ?_ (List.Pairwise.cons hy hys)
        intro z hz
        rcases List.mem_cons.mp hz with rfl | hz'
        · exact hxy
        · exact htr x y z hxy (hy z hz')

theorem pairwise_sortByLe (le : α → α → Bool)
    (htot : ∀ a b, le a b = true ∨ le b a = true)
    (htr : ∀ a b c, le a b = true → le b c = true → le a c = true)
    (l : List α) :
    (sortByLe le l).Pairwise (fun a b => le a b = true) := by
  induction l with
  | nil => simp [sortByLe]
  | cons x xs ih => exact pairwise_insertLe le htot htr x _ ih

/-- Stability of the sort: when the comparator le is the key k1 alone and the
input is already ordered by a second key k2, the output is ordered by the
lexicographic pair of the two keys. -/
theorem pairwise_insertLe_lex (k1 k2 : α → Nat) (le : α → α → Bool)
    (hle : ∀ a b, le a b = true ↔ k1 a ≤ k1 b)
    (x : α) (l : List α)
    (hx : ∀ y ∈ l, k2 x ≤ k2 y)
    (h : l.Pairwise (fun a b => k1 a < k1 b ∨ (k1 a = k1 b ∧ k2 a ≤ k2 b))) :
    (insertLe le x l).Pairwise (fun a b => k1 a < k1 b ∨ (k1 a = k1 b ∧ k2 a ≤ k2 b)) := by
  induction l with
  | nil => simp [insertLe]
  | cons y ys ih =>
    cases h with
    | cons hy hys =>
      by_cases hc : le y x = true ∧ le x y = false
      · have hyx : k1 y < k1 x := by
          have h1 := (hle y x).mp hc.1
          have h2 : ¬ k1 x ≤ k1 y := fun hh => by simp [(hle x y).mpr hh] at hc
          omega
        simp only [insertLe, if_pos hc]
        refine List.Pairwise.cons ?_ (ih (fun z hz => hx z (List.mem_cons_of_mem _ hz)) hys)
        intro z hz
        rcases List.mem_cons.mp ((insertLe_perm le x ys).mem_iff.mp hz) with rfl | hz'
        · exact Or.inl hyx
        · exact hy z hz'
      · have hxy : k1 x ≤ k1 y := by
          by_contra h2
          have hyx : le y x = true := (hle y x).mpr (by omega)
          have hxyf : le x y = false := by
            cases h3 : le x y
            · rfl
            · exact absurd ((hle x y).mp h3) h2
          exact hc ⟨hyx, hxyf⟩
        simp only [insertLe, if_neg hc]
        refine List.Pairwise.cons ?_ (List.Pairwise.cons hy hys)
        intro z hz
        rcases List.mem_cons.mp hz with rfl | hz'
        · rcases Nat.lt_or_ge (k1 x) (k1 z) with h1 | h1
          · exact Or.inl h1
          · exact Or.inr ⟨Nat.le_antisymm hxy h1, hx z (List.mem_cons_self z ys)⟩
        · have hyz : k1 y ≤ k1 z := by rcases hy z hz' with h1 | ⟨h1, _⟩ <;> omega
          rcases Nat.lt_or_ge (k1 x) (k1 z) with h1 | h1
          · exact Or.inl h1
          · exact Or.inr ⟨by omega, hx z (List.mem_cons_of_mem _ hz')⟩

theorem numTruthy_some (i : Nat) : numTruthy (some i) = !(i == 0) := rfl

theorem pairwise_sortByLe_lex (k1 k2 : α → Nat) (le : α → α → Bool)
    (hle : ∀ a b, le a b = true ↔ k1 a ≤ k1 b) (l : List α)
    (h : l.Pairwise (fun a b => k2 a ≤ k2 b)) :
    (sortByLe le l).Pairwise (fun a b => k1 a < k1 b ∨ (k1 a = k1 b ∧ k2 a ≤ k2 b)) := by
  induction l with
  | nil => simp [sortByLe]
  | cons x xs ih =>
    cases h with
    | cons hx hxs =>
      exact pairwise_insertLe_lex k1 k2 le hle x _
        (fun y hy => hx y (mem_sortByLe.mp hy)) (ih hxs)

/-! ## Concrete stores used by counterexamples and witnesses -/

/-- A sqlite store holding one soft-deleted persona and one live post of hers. -/
def c1db : SqliteDB :=
  ⟨[⟨1, "Alice", some "http://a.example/p.png", none, none, some 5⟩],
   [⟨1, some 1, "hi", none, 2, none⟩], [], 2, 2, 1⟩

/-! ## The claims -/

/-- Claim C9 (the code is wrong): in the key-value variant the id of a new
persona is Date.now(), so two creations at the same millisecond 1000 both
return id 1000 and the second db.set overwrites the first persona record:
after the two calls only the persona named B is stored. -/
theorem kvSameMillisecondIdCollision :
    kvPostPersonas (fun _ => true) kvEmpty (some "A") none none none 1000
      = .ok (⟨[⟨1000, "A", none, none, none, none⟩], [("a", 1000)], [], []⟩, 1000)
    ∧ kvPostPersonas (fun _ => true)
        ⟨[⟨1000, "A", none, none, none, none⟩], [("a", 1000)], [], []⟩
        (some "B") none none none 1000
      = .ok (⟨[⟨1000, "B", none, none, none, none⟩], [("a", 1000), ("b", 1000)], [], []⟩, 1000) :=
  ⟨rfl, rfl⟩

/-- Claim C8 (counterexample): the two variants are not observationally
equivalent; already the first request can tell them apart: creating a post
with a blank persona_name fails with PERSONA_REQUIRED on the sqlite variant
but with MISSING_FIELDS on the key-value variant. -/
theorem variantsDisagreeOnBlankPersonaName :
    sqlitePostPosts (fun _ => true) sqliteEmpty (some "") (some "x") none 1 = .error "PERSONA_REQUIRED"
    ∧ kvPostPosts (fun _ => true) kvEmpty (some "") (some "x") none 1 = .error "MISSING_FIELDS"
    ∧ ("PERSONA_REQUIRED" : String) ≠ "MISSING_FIELDS" :=
  ⟨rfl, rfl, by decide⟩

/-- Claim C8 (amended): the two variants expose the same endpoints but differ
observably; on every store, a post creation whose persona_name trims to the
empty string fails with PERSONA_REQUIRED on the sqlite variant and with
MISSING_FIELDS on the key-value variant. -/
theorem blankPersonaNameErrorCodesDiffer (urlOk1 urlOk2 : String → Bool)
    (db1 : SqliteDB) (db2 : KvDB) (pn ct img : Option String) (now1 now2 : Nat)
    (h : jsTrim (orEmpty pn) = "") :
    sqlitePostPosts urlOk1 db1 pn ct img now1 = .error "PERSONA_REQUIRED"
    ∧ kvPostPosts urlOk2 db2 pn ct img now2 = .error "MISSING_FIELDS" := by
  constructor
  · simp [sqlitePostPosts, h]
  · simp [kvPostPosts, h]

/-- Witness for the amended C8 theorem at a whitespace-only persona_name. -/
theorem blankPersonaNameErrorCodesDiffer_witness :
    jsTrim (orEmpty (some "  ")) = ""
    ∧ (sqlitePostPosts (fun _ => true) sqliteEmpty (some "  ") (some "x") none 1
         = .error "PERSONA_REQUIRED"
       ∧ kvPostPosts (fun _ => true) kvEmpty (some "  ") (some "x") none 2
         = .error "MISSING_FIELDS") :=
  ⟨by decide,
   blankPersonaNameErrorCodesDiffer (fun _ => true) (fun _ => true) sqliteEmpty kvEmpty
     (some "  ") (some "x") none 1 2 (by decide)⟩

/-- Claim C1 (counterexample): after soft-deleting the persona Alice, the post
listing still shows persona_name Alice, not the placeholder: the COALESCE of
the sqlite listing only fires when the persona row is absent, and a
soft-deleted persona row is still present. -/
theorem softDeletedPersonaKeepsName :
    (sqliteGetPosts c1db "new").map PostView.persona_name = ["Alice"]
    ∧ ("Alice" : String) ≠ placeholderName
    ∧ ("Alice" : String) ≠ "deleted persona" :=
  ⟨rfl, by decide, by decide⟩

/-- Claim C1 (amended): in both post listings the placeholder name together
with a null avatar is shown exactly when the owning persona row is absent;
for a present but soft-deleted persona the original name is kept while
persona_avatar_url is nulled and persona_deleted is set. -/
theorem listedPersonaDisplay (sdb : SqliteDB) (kdb : KvDB) (sort1 sort2 : String)
    (v w : PostView)
    (hv : v ∈ sqliteGetPosts sdb sort1) (hw : w ∈ kvGetPosts kdb sort2) :
    ((personaOf sdb.personas v.persona_id = none →
        v.persona_name = placeholderName ∧ v.persona_avatar_url = none ∧ v.persona_deleted = true)
     ∧ (∀ q, personaOf sdb.personas v.persona_id = some q → q.deleted_at.isSome →
        v.persona_name = q.name ∧ v.persona_avatar_url = none ∧ v.persona_deleted = true))
    ∧ ((personaOfKv kdb.personas w.persona_id = none →
        w.persona_name = placeholderName ∧ w.persona_avatar_url = none ∧ w.persona_deleted = true)
     ∧ (∀ q, personaOfKv kdb.personas w.persona_id = some q → q.deleted_at.isSome →
        w.persona_name = (if q.name = "" then placeholderName else q.name)
          ∧ w.persona_avatar_url = none ∧ w.persona_deleted = true)) := by
  constructor
  · have hv2 : v ∈ (sdb.posts.filter (fun p => p.deleted_at.isNone)).map (annotatePostSql sdb) := by
      by_cases hs : sort1 = "hot"
      · simpa [sqliteGetPosts, hs, mem_sortByLe] using hv
      · simpa [sqliteGetPosts, hs, mem_sortByLe] using hv
    rcases List.mem_map.mp hv2 with ⟨p, _, rfl⟩
    constructor
    · intro hnone
      simp only [annotatePostSql] at hnone ⊢
      simp [hnone]
    · intro q hq hdel
      simp only [annotatePostSql] at hq ⊢
      simp [hq, hdel]
  · have hw2 : w ∈ (((sortByLe postIdLe kdb.posts).filter (fun p => p.deleted_at.isNone)).map
        (annotatePostKv kdb)) := by
      by_cases hs : sort2 = "hot"
      · simpa [kvGetPosts, hs, mem_sortByLe] using hw
      · simpa [kvGetPosts, hs, mem_sortByLe] using hw
    rcases List.mem_map.mp hw2 with ⟨p, _, rfl⟩
    constructor
    · intro hnone
      simp only [annotatePostKv] at hnone ⊢
      simp [hnone]
    · intro q hq hdel
      simp only [annotatePostKv] at hq ⊢
      simp [hq, hdel]

/-- A key-value store holding one live post whose persona id resolves nowhere. -/
def c1kdb : KvDB := ⟨[], [], [⟨7, some 9, "k", none, 3, none⟩], []⟩

/-- The listed view of the post of c1db. -/
def c1view : PostView := ⟨1, "hi", none, 2, none, some 1, "Alice", none, true, 0⟩

/-- The listed view of the post of c1kdb. -/
def c1kview : PostView := ⟨7, "k", none, 3, none, some 9, placeholderName, none, true, 0⟩

/-- Witness for the amended C1 theorem: the store of the counterexample on
the sqlite side and a one-post key-value store with an absent persona. -/
theorem listedPersonaDisplay_witness :
    c1view ∈ sqliteGetPosts c1db "new"
    ∧ c1kview ∈ kvGetPosts c1kdb "new"
    ∧ (c1view.persona_name = "Alice" ∧ c1view.persona_avatar_url = none
        ∧ c1view.persona_deleted = true)
    ∧ (c1kview.persona_name = placeholderName ∧ c1kview.persona_avatar_url = none
        ∧ c1kview.persona_deleted = true) :=
  ⟨by decide, by decide,
   (listedPersonaDisplay c1db c1kdb "new" "new" c1view c1kview (by decide) (by decide)).1.2
     ⟨1, "Alice", some "http://a.example/p.png", none, none, some 5⟩ (by decide) (by decide),
   (listedPersonaDisplay c1db c1kdb "new" "new" c1view c1kview (by decide) (by decide)).2.1
     (by decide)⟩

/-- Claim C2 (counterexample): in the key-value variant, deleting a post
physically removes its comment records from storage instead of marking them. -/
theorem kvDeletePostRemovesComments :
    kvDeletePost ⟨[], [], [⟨10, some 1, "p", none, 1, none⟩],
        [⟨20, 10, some 1, "c", none, 2, none⟩]⟩ 10 9
      = .ok ⟨[], [], [⟨10, some 1, "p", none, 1, some 9⟩], []⟩ :=
  rfl

/-- Claim C2 (amended): the sqlite variant soft-deletes a live post and all of
its comments in one transaction, keeping every row; the key-value variant
marks the post but physically deletes the comment records of the post. -/
theorem deletePostCascade (sdb : SqliteDB) (kdb : KvDB) (id1 id2 now1 now2 : Nat)
    (p1 : Post) (hp1 : sdb.posts.find? (fun p => p.id == id1) = some p1)
    (hlive1 : p1.deleted_at = none)
    (p2 : Post) (hp2 : kdb.posts.find? (fun p => p.id == id2) = some p2) :
    (∃ db2, sqliteDeletePost sdb id1 now1 = .ok db2
       ∧ (∀ q ∈ db2.posts, q.id = id1 → q.deleted_at = some now1)
       ∧ (∀ c ∈ db2.comments, c.post_id = id1 → c.deleted_at = some now1)
       ∧ db2.posts.map Post.id = sdb.posts.map Post.id
       ∧ db2.comments.map Comment.id = sdb.comments.map Comment.id)
    ∧ (∃ db2, kvDeletePost kdb id2 now2 = .ok db2
       ∧ db2.posts = kvSetPost kdb.posts { p2 with deleted_at := some now2 }
       ∧ db2.comments = kdb.comments.filter (fun c => !(c.post_id == id2))) := by
  constructor
  · have heq : sqliteDeletePost sdb id1 now1 = .ok ⟨sdb.personas,
        sdb.posts.map (fun q => if q.id = id1 then { q with deleted_at := some now1 } else q),
        sdb.comments.map (fun c => if c.post_id = id1 then { c with deleted_at := some now1 } else c),
        sdb.nextPersonaId, sdb.nextPostId, sdb.nextCommentId⟩ := by
      simp [sqliteDeletePost, hp1, hlive1]
    refine ⟨_, heq, ?_, ?_, ?_, ?_⟩
    · intro q hq hid
      rcases List.mem_map.mp hq with ⟨q0, hq0, rfl⟩
      by_cases h : q0.id = id1
      · simp [h]
      · simp only [if_neg h] at hid
        exact absurd hid h
    · intro c hc hid
      rcases List.mem_map.mp hc with ⟨c0, hc0, rfl⟩
      by_cases h : c0.post_id = id1
      · simp [h]
      · simp only [if_neg h] at hid
        exact absurd hid h
    · rw [List.map_map]
      refine List.map_congr_left ?_
      intro q _
      by_cases h : q.id = id1 <;> simp [h]
    · rw [List.map_map]
      refine List.map_congr_left ?_
      intro c _
      by_cases h : c.post_id = id1 <;> simp [h]
  · have heq : kvDeletePost kdb id2 now2 = .ok ⟨kdb.personas, kdb.personaNames,
        kvSetPost kdb.posts { p2 with deleted_at := some now2 },
        kdb.comments.filter (fun c => !(c.post_id == id2))⟩ := by
      simp [kvDeletePost, hp2]
    exact ⟨_, heq, rfl, rfl⟩

/-- A sqlite store holding one live post and one live comment on it. -/
def c2sdb : SqliteDB :=
  ⟨[], [⟨10, some 1, "p", none, 1, none⟩], [⟨20, 10, some 1, "c", none, 2, none⟩], 1, 11, 21⟩

/-- A key-value store holding one live post and one live comment on it. -/
def c2kdb : KvDB :=
  ⟨[], [], [⟨10, some 1, "p", none, 1, none⟩], [⟨20, 10, some 1, "c", none, 2, none⟩]⟩

/-- Witness for the amended C2 theorem on one-post one-comment stores. -/
theorem deletePostCascade_witness :
    (∃ db2, sqliteDeletePost c2sdb 10 3 = .ok db2
       ∧ (∀ q ∈ db2.posts, q.id = 10 → q.deleted_at = some 3)
       ∧ (∀ c ∈ db2.comments, c.post_id = 10 → c.deleted_at = some 3)
       ∧ db2.posts.map Post.id = c2sdb.posts.map Post.id
       ∧ db2.comments.map Comment.id = c2sdb.comments.map Comment.id)
    ∧ (∃ db2, kvDeletePost c2kdb 10 3 = .ok db2
       ∧ db2.posts = kvSetPost c2kdb.posts
           { (⟨10, some 1, "p", none, 1, none⟩ : Post) with deleted_at := some 3 }
       ∧ db2.comments = c2kdb.comments.filter (fun c => !(c.post_id == 10))) :=
  deletePostCascade c2sdb c2kdb 10 10 3 3
    ⟨10, some 1, "p", none, 1, none⟩ (by decide) rfl
    ⟨10, some 1, "p", none, 1, none⟩ (by decide)

/-- A key-value store with one persona and two live posts, the first with a
live comment. -/
def c3kdb : KvDB :=
  ⟨[⟨1, "Bob", none, none, none, none⟩], [("bob", 1)],
   [⟨10, some 1, "p1", none, 1, none⟩, ⟨20, some 1, "p2", none, 2, none⟩],
   [⟨100, 10, some 1, "c1", none, 3, none⟩]⟩

/-- Claim C3 (counterexample): the key-value variant accepts a comment whose
reply_to_comment_id names a comment of a different post: the reply targeting
comment 100 of post 10 is persisted under post 20 without any check. -/
theorem kvCrossPostReplyAccepted :
    kvPostComments c3kdb (some 20) (some "Bob") (some "x") (some 100) 50
      = .ok (⟨[⟨1, "Bob", none, none, none, none⟩], [("bob", 1)],
          [⟨10, some 1, "p1", none, 1, none⟩, ⟨20, some 1, "p2", none, 2, none⟩],
          [⟨100, 10, some 1, "c1", none, 3, none⟩, ⟨50, 20, some 1, "x", some 100, 50, none⟩]⟩, 50)
    ∧ (10 : Nat) ≠ 20 :=
  ⟨rfl, by decide⟩

/-- Claim C3 (amended): the sqlite variant validates reply_to_comment_id as
claimed — the reply target must be a stored, non-deleted comment of the same
post, else the request fails REPLY_TARGET_INVALID and nothing is persisted —
while the key-value variant stores the reply without validating the target. -/
theorem replyTargetValidation (sdb : SqliteDB) (kdb : KvDB) (postId1 postId2 r1 r2 now1 now2 : Nat)
    (pn1 ct1 pn2 ct2 : Option String)
    (hpn1 : jsTrim (orEmpty pn1) ≠ "") (hct1 : jsTrim (orEmpty ct1) ≠ "")
    (post1 : Post) (hpost1 : sdb.posts.find? (fun p => p.id == postId1) = some post1)
    (hpl1 : post1.deleted_at = none)
    (per1 : Persona)
    (hper1 : sdb.personas.find? (fun p => jsLower p.name == jsLower (jsTrim (orEmpty pn1))) = some per1)
    (hperl1 : per1.deleted_at = none)
    (hpn2 : jsTrim (orEmpty pn2) ≠ "") (hct2 : jsTrim (orEmpty ct2) ≠ "")
    (hid2 : postId2 ≠ 0)
    (post2 : Post) (hpost2 : kdb.posts.find? (fun p => p.id == postId2) = some post2)
    (hpl2 : post2.deleted_at = none)
    (hperid2 : numTruthy (kvGetName kdb.personaNames (jsLower (jsTrim (orEmpty pn2)))) = true) :
    ((sdb.comments.find? (fun c => c.id == r1) = none →
        sqlitePostComments sdb (some postId1) pn1 ct1 (some r1) now1 = .error "REPLY_TARGET_INVALID")
     ∧ (∀ parent, sdb.comments.find? (fun c => c.id == r1) = some parent →
          parent.deleted_at.isSome ∨ parent.post_id ≠ postId1 →
          sqlitePostComments sdb (some postId1) pn1 ct1 (some r1) now1 = .error "REPLY_TARGET_INVALID")
     ∧ (∀ parent, sdb.comments.find? (fun c => c.id == r1) = some parent →
          parent.deleted_at = none → parent.post_id = postId1 →
          sqlitePostComments sdb (some postId1) pn1 ct1 (some r1) now1 =
            .ok ({ sdb with
              comments := sdb.comments ++
                [⟨sdb.nextCommentId, postId1, some per1.id, jsTrim (orEmpty ct1), some r1, now1, none⟩],
              nextCommentId := sdb.nextCommentId + 1 }, sdb.nextCommentId)))
    ∧ kvPostComments kdb (some postId2) pn2 ct2 (some r2) now2 =
        .ok ({ kdb with
          comments := kvSetComment kdb.comments
            ⟨now2, postId2, kvGetName kdb.personaNames (jsLower (jsTrim (orEmpty pn2))),
             jsTrim (orEmpty ct2), some r2, now2, none⟩ }, now2) := by
  refine ⟨⟨?_, ?_, ?_⟩, ?_⟩
  · intro hnone
    simp [sqlitePostComments, hpn1, hct1, hpost1, hpl1, hper1, hperl1, hnone]
  · intro parent hpar hbad
    rcases hbad with hdel | hne
    · simp [sqlitePostComments, hpn1, hct1, hpost1, hpl1, hper1, hperl1, hpar, hdel]
    · simp [sqlitePostComments, hpn1, hct1, hpost1, hpl1, hper1, hperl1, hpar, hne]
  · intro parent hpar hdel hpid
    simp [sqlitePostComments, hpn1, hct1, hpost1, hpl1, hper1, hperl1, hpar, hdel, hpid]
  · simp [kvPostComments, hpn2, hct2, numTruthy_some, hid2, hpost2, hpl2, hperid2]

/-- A sqlite store with one persona, two live posts, and one comment on the
first post. -/
def c3sdb : SqliteDB :=
  ⟨[⟨1, "Bob", none, none, none, none⟩],
   [⟨10, some 1, "p1", none, 1, none⟩, ⟨20, some 1, "p2", none, 2, none⟩],
   [⟨100, 10, some 1, "c1", none, 3, none⟩], 2, 21, 101⟩

/-- Finding by id commutes with an id-preserving row update. -/
theorem find_map_update (l : List Persona) (id : Nat) (f : Persona → Persona)
    (hf : ∀ q, (f q).id = q.id) :
    (l.map f).find? (fun q => q.id == id) = (l.find? (fun q => q.id == id)).map f := by
  have hpred : ((fun q : Persona => q.id == id) ∘ f) = (fun q : Persona => q.id == id) := by
    funext q
    simp [Function.comp, hf]
  rw [List.find?_map, hpred]

/-- A sqlite store holding one live persona named Alice. -/
def c4sdb : SqliteDB := ⟨[⟨1, "Alice", none, none, none, none⟩], [], [], 2, 1, 1⟩

/-- Claim C4 (counterexample): the sqlite UNIQUE constraint on personas.name
uses the default binary collation, so creating the persona alice while Alice
exists succeeds instead of failing NAME_EXISTS, although the two names are
case-insensitively equal. -/
theorem sqliteCaseVariantNameAccepted :
    sqlitePostPersonas (fun _ => true) c4sdb (some "alice") none none none
      = .ok (⟨[⟨1, "Alice", none, none, none, none⟩, ⟨2, "alice", none, none, none, none⟩],
          [], [], 3, 1, 1⟩, 2)
    ∧ jsLower "Alice" = jsLower "alice" :=
  ⟨rfl, rfl⟩

/-- Claim C4 (amended): a trimmed name equal to the reserved value fails
NAME_RESERVED on both variants; the key-value variant fails NAME_EXISTS
exactly when the live-name index holds the lowercased trimmed name; the
sqlite variant fails NAME_EXISTS exactly when some stored persona row — live
or soft-deleted — has the byte-identical name, so a case variant of an
existing name is accepted there. -/
theorem personaNameUniqueness (urlOk1 urlOk2 : String → Bool) (sdb : SqliteDB) (kdb : KvDB)
    (nm av bi cr : Option String) (now : Nat) :
    (jsTrim (orEmpty nm) = "未命名" →
       sqlitePostPersonas urlOk1 sdb nm av bi cr = .error "NAME_RESERVED"
       ∧ kvPostPersonas urlOk2 kdb nm av bi cr now = .error "NAME_RESERVED")
    ∧ (jsTrim (orEmpty nm) ≠ "" → jsTrim (orEmpty nm) ≠ "未命名" →
       ¬(jsTrim (orEmpty av) ≠ "" ∧ isProbablyHttpUrl urlOk1 (jsTrim (orEmpty av)) = false) →
       (sqlitePostPersonas urlOk1 sdb nm av bi cr = .error "NAME_EXISTS"
         ↔ sdb.personas.any (fun p => p.name == jsTrim (orEmpty nm)) = true))
    ∧ (jsTrim (orEmpty nm) ≠ "" → jsTrim (orEmpty nm) ≠ "未命名" →
       (kvPostPersonas urlOk2 kdb nm av bi cr now = .error "NAME_EXISTS"
         ↔ numTruthy (kvGetName kdb.personaNames (jsLower (jsTrim (orEmpty nm)))) = true)) := by
  refine ⟨?_, ?_, ?_⟩
  · intro h
    constructor
    · simp [sqlitePostPersonas, h]
    · simp [kvPostPersonas, h]
  · intro h1 h2 h3
    cases hex : sdb.personas.any (fun p => p.name == jsTrim (orEmpty nm))
    · simp [sqlitePostPersonas, h1, h2, h3, hex]
    · simp [sqlitePostPersonas, h1, h2, h3, hex]
  · intro h1 h2
    cases hname : numTruthy (kvGetName kdb.personaNames (jsLower (jsTrim (orEmpty nm))))
    · simp only [kvPostPersonas, h1, h2, hname, Bool.false_eq_true, if_neg, ite_false]
      constructor
      · intro hbad
        rcases hsc : strToOpt (jsTrim (orEmpty av)) with _ | a
        · rw [hsc] at hbad
          simp at hbad
        · rw [hsc] at hbad
          by_cases hurl : isProbablyHttpUrl urlOk2 a = false
          · simp [hurl] at hbad
          · simp [hurl] at hbad
      · intro hbad
        simp at hbad
    · simp [kvPostPersonas, h1, h2, hname]

/-- A key-value store holding one live persona named Alice and its name key. -/
def c4kdb : KvDB := ⟨[⟨1, "Alice", none, none, none, none⟩], [("alice", 1)], [], []⟩

/-- Witness for the amended C4 theorem: the reserved name is rejected, Alice
blocks Alice on the sqlite variant, and ALICE is blocked on the key-value
variant through the lowercased name index. -/
theorem personaNameUniqueness_witness :
    (sqlitePostPersonas (fun _ => true) c4sdb (some "未命名") none none none
        = .error "NAME_RESERVED"
     ∧ kvPostPersonas (fun _ => true) kvEmpty (some "未命名") none none none 1
        = .error "NAME_RESERVED")
    ∧ (sqlitePostPersonas (fun _ => true) c4sdb (some "Alice") none none none
          = .error "NAME_EXISTS"
        ↔ c4sdb.personas.any (fun p => p.name == jsTrim (orEmpty (some "Alice"))) = true)
    ∧ (kvPostPersonas (fun _ => true) c4kdb (some "ALICE") none none none 5
          = .error "NAME_EXISTS"
        ↔ numTruthy (kvGetName c4kdb.personaNames (jsLower (jsTrim (orEmpty (some "ALICE"))))) = true) :=
  ⟨(personaNameUniqueness (fun _ => true) (fun _ => true) c4sdb kvEmpty
      (some "未命名") none none none 1).1 (by decide),
   (personaNameUniqueness (fun _ => true) (fun _ => true) c4sdb kvEmpty
      (some "Alice") none none none 1).2.1 (by decide) (by decide) (by decide),
   (personaNameUniqueness (fun _ => true) (fun _ => true) c4sdb c4kdb
      (some "ALICE") none none none 5).2.2 (by decide) (by decide)⟩

/-- One key-value persona soft-delete: the call succeeds whenever the id is
stored, and always re-stamps deleted_at with the current time. -/
theorem kvDeletePersona_ok (kdb : KvDB) (id t : Nat) (p : Persona)
    (hp : kdb.personas.find? (fun q => q.id == id) = some p) :
    ∃ db1, kvDeletePersona kdb id t = .ok db1
      ∧ db1.personas.find? (fun q => q.id == id) = some { p with deleted_at := some t } := by
  have hmem := List.mem_of_find?_eq_some hp
  have heq : kvDeletePersona kdb id t = .ok ⟨kvSetPersona kdb.personas { p with deleted_at := some t },
      kvDelName kdb.personaNames (jsLower p.name), kdb.posts, kdb.comments⟩ := by
    simp [kvDeletePersona, hp]
  refine ⟨_, heq, ?_⟩
  have hany : kdb.personas.any (fun q => q.id == ({ p with deleted_at := some t } : Persona).id) = true :=
    List.any_eq_true.mpr ⟨p, hmem, by simp⟩
  rw [kvSetPersona, if_pos hany]
  rw [find_map_update]
  · rw [hp]
    simp
  · intro q
    by_cases h : q.id = ({ p with deleted_at := some t } : Persona).id <;> simp [h]

/-- Claim C6 (counterexample): the key-value variant is not idempotent in
state: re-deleting the already-deleted persona overwrites deleted_at with the
newer timestamp, so deleting twice at times 5 and 7 differs from once at 5. -/
theorem kvPersonaReDeleteChangesState :
    kvDeletePersona ⟨[⟨1, "A", none, none, none, none⟩], [("a", 1)], [], []⟩ 1 5
      = .ok ⟨[⟨1, "A", none, none, none, some 5⟩], [], [], []⟩
    ∧ kvDeletePersona ⟨[⟨1, "A", none, none, none, some 5⟩], [], [], []⟩ 1 7
      = .ok ⟨[⟨1, "A", none, none, none, some 7⟩], [], [], []⟩
    ∧ (⟨[⟨1, "A", none, none, none, some 7⟩], [], [], []⟩ : KvDB)
        ≠ ⟨[⟨1, "A", none, none, none, some 5⟩], [], [], []⟩ :=
  ⟨rfl, rfl, by decide⟩

/-- Claim C6 (amended): the sqlite variant is idempotent as claimed — a second
soft-delete of a stored persona succeeds and leaves the store unchanged, and
NOT_FOUND arises exactly for an id that is not stored; the key-value variant
also succeeds on both calls and fails NOT_FOUND only for an absent id, but
the second call re-stamps deleted_at with its own time. -/
theorem personaSoftDeleteIdempotence (sdb sdbA : SqliteDB) (kdb kdbA : KvDB)
    (id1 idA id2 idB t1 t2 t3 t4 t5 t6 : Nat)
    (p1 : Persona) (hp1 : sdb.personas.find? (fun p => p.id == id1) = some p1)
    (hA : sdbA.personas.find? (fun p => p.id == idA) = none)
    (p2 : Persona) (hp2 : kdb.personas.find? (fun p => p.id == id2) = some p2)
    (hB : kdbA.personas.find? (fun p => p.id == idB) = none) :
    (∃ db1, sqliteDeletePersona sdb id1 t1 = .ok db1 ∧ sqliteDeletePersona db1 id1 t2 = .ok db1)
    ∧ sqliteDeletePersona sdbA idA t5 = .error "NOT_FOUND"
    ∧ (∃ db1 db2, kvDeletePersona kdb id2 t3 = .ok db1 ∧ kvDeletePersona db1 id2 t4 = .ok db2
        ∧ db2.personas.find? (fun p => p.id == id2) = some { p2 with deleted_at := some t4 })
    ∧ kvDeletePersona kdbA idB t6 = .error "NOT_FOUND" := by
  refine ⟨?_, by simp [sqliteDeletePersona, hA], ?_, by simp [kvDeletePersona, hB]⟩
  · have hpid : p1.id = id1 := by simpa using List.find?_some hp1
    cases hdel : p1.deleted_at with
    | some s =>
      refine ⟨sdb, ?_, ?_⟩ <;> simp [sqliteDeletePersona, hp1, hdel]
    | none =>
      have heq : sqliteDeletePersona sdb id1 t1 = .ok ⟨sdb.personas.map
          (fun q => if q.id = id1 then { q with deleted_at := some t1 } else q),
          sdb.posts, sdb.comments, sdb.nextPersonaId, sdb.nextPostId, sdb.nextCommentId⟩ := by
        simp [sqliteDeletePersona, hp1, hdel]
      refine ⟨_, heq, ?_⟩
      have hfind2 : (sdb.personas.map
          (fun q => if q.id = id1 then { q with deleted_at := some t1 } else q)).find?
          (fun q => q.id == id1) = some { p1 with deleted_at := some t1 } := by
        rw [find_map_update]
        · rw [hp1]
          simp [hpid]
        · intro q
          by_cases h : q.id = id1 <;> simp [h]
      simp [sqliteDeletePersona, hfind2]
  · obtain ⟨db1, h1, hf1⟩ := kvDeletePersona_ok kdb id2 t3 p2 hp2
    obtain ⟨db2, h2, hf2⟩ := kvDeletePersona_ok db1 id2 t4 _ hf1
    exact ⟨db1, db2, h1, h2, hf2⟩

/-- A one-persona sqlite store for the C6 witness. -/
def c6sdb : SqliteDB := ⟨[⟨1, "A", none, none, none, none⟩], [], [], 2, 1, 1⟩

/-- A one-persona key-value store for the C6 witness. -/
def c6kdb : KvDB := ⟨[⟨1, "A", none, none, none, none⟩], [("a", 1)], [], []⟩

/-- Witness for the amended C6 theorem on one-persona stores and the empty
stores for the absent ids. -/
theorem personaSoftDeleteIdempotence_witness :
    (∃ db1, sqliteDeletePersona c6sdb 1 5 = .ok db1 ∧ sqliteDeletePersona db1 1 7 = .ok db1)
    ∧ sqliteDeletePersona sqliteEmpty 9 5 = .error "NOT_FOUND"
    ∧ (∃ db1 db2, kvDeletePersona c6kdb 1 5 = .ok db1 ∧ kvDeletePersona db1 1 7 = .ok db2
        ∧ db2.personas.find? (fun p => p.id == 1)
            = some { (⟨1, "A", none, none, none, none⟩ : Persona) with deleted_at := some 7 })
    ∧ kvDeletePersona kvEmpty 9 5 = .error "NOT_FOUND" :=
  personaSoftDeleteIdempotence c6sdb sqliteEmpty c6kdb kvEmpty 1 9 1 9 5 7 5 7 5 5
    ⟨1, "A", none, none, none, none⟩ (by decide) (by decide)
    ⟨1, "A", none, none, none, none⟩ (by decide) (by decide)

/-- Witness for the amended C3 theorem: the sqlite variant rejects the
cross-post reply that the key-value variant accepts. -/
theorem replyTargetValidation_witness :
    sqlitePostComments c3sdb (some 20) (some "Bob") (some "x") (some 100) 50
      = .error "REPLY_TARGET_INVALID" :=
  (replyTargetValidation c3sdb c3kdb 20 20 100 100 50 50
      (some "Bob") (some "x") (some "Bob") (some "x")
      (by decide) (by decide) ⟨20, some 1, "p2", none, 2, none⟩ (by decide) rfl
      ⟨1, "Bob", none, none, none, none⟩ (by decide) rfl
      (by decide) (by decide) (by decide) ⟨20, some 1, "p2", none, 2, none⟩ (by decide) rfl
      (by decide)).1.2.1
    ⟨100, 10, some 1, "c1", none, 3, none⟩ (by decide) (by decide)

/-- The record written by a db.set on persona:id is in the resulting list. -/
theorem mem_kvSetPersona (l : List Persona) (p : Persona) : p ∈ kvSetPersona l p := by
  rw [kvSetPersona]
  split
  · next hany =>
    rcases List.any_eq_true.mp hany with ⟨q0, hq0, hbeq⟩
    have hq0id : q0.id = p.id := by simpa using hbeq
    exact List.mem_map.mpr ⟨q0, hq0, by simp [hq0id]⟩
  · simp

/-- The record written by a db.set on post:id is in the resulting list. -/
theorem mem_kvSetPost (l : List Post) (p : Post) : p ∈ kvSetPost l p := by
  rw [kvSetPost]
  split
  · next hany =>
    rcases List.any_eq_true.mp hany with ⟨q0, hq0, hbeq⟩
    have hq0id : q0.id = p.id := by simpa using hbeq
    exact List.mem_map.mpr ⟨q0, hq0, by simp [hq0id]⟩
  · simp

/-- Blank optional fields of a sqlite persona creation: no avatar validation,
null storage. -/
theorem sqlitePersonaBlankFields (urlOk : String → Bool) (sdb : SqliteDB)
    (nm av bi cr : Option String)
    (hav : jsTrim (orEmpty av) = "") (hbi : jsTrim (orEmpty bi) = "")
    (hcr : jsTrim (orEmpty cr) = "") :
    sqlitePostPersonas urlOk sdb nm av bi cr ≠ .error "AVATAR_URL_INVALID"
    ∧ ∀ db2 i, sqlitePostPersonas urlOk sdb nm av bi cr = .ok (db2, i) →
        ∃ p, p ∈ db2.personas ∧ p.id = i ∧ p.avatar_url = none ∧ p.bio = none ∧ p.creator = none := by
  by_cases h1 : jsTrim (orEmpty nm) = ""
  · constructor
    · intro hbad
      simp [sqlitePostPersonas, h1] at hbad
    · intro db2 i hok
      simp [sqlitePostPersonas, h1] at hok
  · by_cases h2 : jsTrim (orEmpty nm) = "未命名"
    · constructor
      · intro hbad
        simp [sqlitePostPersonas, h1, h2] at hbad
      · intro db2 i hok
        simp [sqlitePostPersonas, h1, h2] at hok
    · by_cases h3 : sdb.personas.any (fun p => p.name == jsTrim (orEmpty nm)) = true
      · constructor
        · intro hbad
          simp [sqlitePostPersonas, hav, h1, h2, h3] at hbad
        · intro db2 i hok
          simp [sqlitePostPersonas, hav, h1, h2, h3] at hok
      · constructor
        · intro hbad
          simp [sqlitePostPersonas, hav, h1, h2, h3] at hbad
        · intro db2 i hok
          simp [sqlitePostPersonas, hav, hbi, hcr, strToOpt, h1, h2, h3] at hok
          obtain ⟨h4, h5⟩ := hok
          subst h4
          subst h5
          refine ⟨⟨sdb.nextPersonaId, jsTrim (orEmpty nm), none, none, none, none⟩, ?_, rfl, rfl, rfl, rfl⟩
          simp

/-- Blank optional fields of a key-value persona creation. -/
theorem kvPersonaBlankFields (urlOk : String → Bool) (kdb : KvDB)
    (nm av bi cr : Option String) (t : Nat)
    (hav : jsTrim (orEmpty av) = "") (hbi : jsTrim (orEmpty bi) = "")
    (hcr : jsTrim (orEmpty cr) = "") :
    kvPostPersonas urlOk kdb nm av bi cr t ≠ .error "AVATAR_URL_INVALID"
    ∧ ∀ db2 i, kvPostPersonas urlOk kdb nm av bi cr t = .ok (db2, i) →
        ∃ p, p ∈ db2.personas ∧ p.id = i ∧ p.avatar_url = none ∧ p.bio = none ∧ p.creator = none := by
  by_cases h1 : jsTrim (orEmpty nm) = ""
  · constructor
    · intro hbad
      simp [kvPostPersonas, h1] at hbad
    · intro db2 i hok
      simp [kvPostPersonas, h1] at hok
  · by_cases h2 : jsTrim (orEmpty nm) = "未命名"
    · constructor
      · intro hbad
        simp [kvPostPersonas, h1, h2] at hbad
      · intro db2 i hok
        simp [kvPostPersonas, h1, h2] at hok
    · by_cases h3 : numTruthy (kvGetName kdb.personaNames (jsLower (jsTrim (orEmpty nm)))) = true
      · constructor
        · intro hbad
          simp [kvPostPersonas, h1, h2, h3] at hbad
        · intro db2 i hok
          simp [kvPostPersonas, h1, h2, h3] at hok
      · constructor
        · intro hbad
          simp [kvPostPersonas, hav, hbi, hcr, strToOpt, h1, h2, h3] at hbad
        · intro db2 i hok
          simp [kvPostPersonas, hav, hbi, hcr, strToOpt, h1, h2, h3] at hok
          obtain ⟨h4, h5⟩ := hok
          subst h4
          subst h5
          exact ⟨⟨t, jsTrim (orEmpty nm), none, none, none, none⟩,
            mem_kvSetPersona _ _, rfl, rfl, rfl, rfl⟩

/-- Blank image_url of a sqlite post creation. -/
theorem sqlitePostBlankImage (urlOk : String → Bool) (sdb : SqliteDB)
    (pn ct img : Option String) (t : Nat)
    (himg : jsTrim (orEmpty img) = "") :
    sqlitePostPosts urlOk sdb pn ct img t ≠ .error "IMAGE_URL_INVALID"
    ∧ ∀ db2 i, sqlitePostPosts urlOk sdb pn ct img t = .ok (db2, i) →
        ∃ p, p ∈ db2.posts ∧ p.id = i ∧ p.image_url = none := by
  by_cases h1 : jsTrim (orEmpty pn) = ""
  · constructor
    · intro hbad
      simp [sqlitePostPosts, h1] at hbad
    · intro db2 i hok
      simp [sqlitePostPosts, h1] at hok
  · by_cases h2 : jsTrim (orEmpty ct) = ""
    · constructor
      · intro hbad
        simp [sqlitePostPosts, h1, h2] at hbad
      · intro db2 i hok
        simp [sqlitePostPosts, h1, h2] at hok
    · rcases hper : sdb.personas.find? (fun p => jsLower p.name == jsLower (jsTrim (orEmpty pn)))
        with _ | per
      · constructor
        · intro hbad
          simp [sqlitePostPosts, himg, h1, h2, hper] at hbad
        · intro db2 i hok
          simp [sqlitePostPosts, himg, h1, h2, hper] at hok
      · by_cases h3 : per.deleted_at.isSome = true
        · constructor
          · intro hbad
            simp [sqlitePostPosts, himg, h1, h2, hper, h3] at hbad
          · intro db2 i hok
            simp [sqlitePostPosts, himg, h1, h2, hper, h3] at hok
        · constructor
          · intro hbad
            simp [sqlitePostPosts, himg, h1, h2, hper, h3] at hbad
          · intro db2 i hok
            simp [sqlitePostPosts, himg, strToOpt, h1, h2, hper, h3] at hok
            obtain ⟨h4, h5⟩ := hok
            subst h4
            subst h5
            refine ⟨⟨sdb.nextPostId, some per.id, jsTrim (orEmpty ct), none, t, none⟩, ?_, rfl, rfl⟩
            simp

/-- Blank image_url of a key-value post creation. -/
theorem kvPostBlankImage (urlOk : String → Bool) (kdb : KvDB)
    (pn ct img : Option String) (t : Nat)
    (himg : jsTrim (orEmpty img) = "") :
    kvPostPosts urlOk kdb pn ct img t ≠ .error "IMAGE_URL_INVALID"
    ∧ ∀ db2 i, kvPostPosts urlOk kdb pn ct img t = .ok (db2, i) →
        ∃ p, p ∈ db2.posts ∧ p.id = i ∧ p.image_url = none := by
  by_cases h1 : jsTrim (orEmpty pn) = "" ∨ jsTrim (orEmpty ct) = ""
  · constructor
    · intro hbad
      simp only [kvPostPosts, if_pos h1] at hbad
      simp at hbad
    · intro db2 i hok
      simp only [kvPostPosts, if_pos h1] at hok
      simp at hok
  · by_cases h3 : numTruthy (kvGetName kdb.personaNames (jsLower (jsTrim (orEmpty pn)))) = false
    · constructor
      · intro hbad
        simp [kvPostPosts, himg, h1, h3] at hbad
      · intro db2 i hok
        simp [kvPostPosts, himg, h1, h3] at hok
    · constructor
      · intro hbad
        simp [kvPostPosts, himg, strToOpt, h1, h3] at hbad
      · intro db2 i hok
        simp [kvPostPosts, himg, strToOpt, h1, h3] at hok
        obtain ⟨h4, h5⟩ := hok
        subst h4
        subst h5
        exact ⟨⟨t, kvGetName kdb.personaNames (jsLower (jsTrim (orEmpty pn))),
          jsTrim (orEmpty ct), none, t, none⟩, mem_kvSetPost _ _, rfl, rfl⟩

/-- Claim C10: on both variants, an optional field that is absent, empty or
whitespace-only after trimming is stored as null, and the URL validation
never fires for such an avatar_url or image_url, whatever the underlying URL
parser says. -/
theorem emptyOptionalFieldsStoredNull (urlOk1 urlOk2 urlOk3 urlOk4 : String → Bool)
    (sdb sdb2 : SqliteDB) (kdb kdb2 : KvDB)
    (nm nm2 pn pn2 ct ct2 av bi cr img : Option String) (t1 t2 t3 : Nat)
    (hav : jsTrim (orEmpty av) = "") (hbi : jsTrim (orEmpty bi) = "")
    (hcr : jsTrim (orEmpty cr) = "") (himg : jsTrim (orEmpty img) = "") :
    (sqlitePostPersonas urlOk1 sdb nm av bi cr ≠ .error "AVATAR_URL_INVALID"
     ∧ ∀ db2 i, sqlitePostPersonas urlOk1 sdb nm av bi cr = .ok (db2, i) →
         ∃ p, p ∈ db2.personas ∧ p.id = i ∧ p.avatar_url = none ∧ p.bio = none ∧ p.creator = none)
    ∧ (kvPostPersonas urlOk2 kdb nm2 av bi cr t1 ≠ .error "AVATAR_URL_INVALID"
     ∧ ∀ db2 i, kvPostPersonas urlOk2 kdb nm2 av bi cr t1 = .ok (db2, i) →
         ∃ p, p ∈ db2.personas ∧ p.id = i ∧ p.avatar_url = none ∧ p.bio = none ∧ p.creator = none)
    ∧ (sqlitePostPosts urlOk3 sdb2 pn ct img t2 ≠ .error "IMAGE_URL_INVALID"
     ∧ ∀ db2 i, sqlitePostPosts urlOk3 sdb2 pn ct img t2 = .ok (db2, i) →
         ∃ p, p ∈ db2.posts ∧ p.id = i ∧ p.image_url = none)
    ∧ (kvPostPosts urlOk4 kdb2 pn2 ct2 img t3 ≠ .error "IMAGE_URL_INVALID"
     ∧ ∀ db2 i, kvPostPosts urlOk4 kdb2 pn2 ct2 img t3 = .ok (db2, i) →
         ∃ p, p ∈ db2.posts ∧ p.id = i ∧ p.image_url = none) :=
  ⟨sqlitePersonaBlankFields urlOk1 sdb nm av bi cr hav hbi hcr,
   kvPersonaBlankFields urlOk2 kdb nm2 av bi cr t1 hav hbi hcr,
   sqlitePostBlankImage urlOk3 sdb2 pn ct img t2 himg,
   kvPostBlankImage urlOk4 kdb2 pn2 ct2 img t3 himg⟩

/-- A one-persona sqlite store for the C10 witness. -/
def c10sdb : SqliteDB := ⟨[⟨1, "Bob", none, none, none, none⟩], [], [], 2, 1, 1⟩

/-- A one-persona key-value store for the C10 witness. -/
def c10kdb : KvDB := ⟨[⟨1, "Bob", none, none, none, none⟩], [("bob", 1)], [], []⟩

/-- Witness for the C10 theorem with whitespace-only optional fields and a
URL parser that rejects everything: the validation is still skipped. -/
theorem emptyOptionalFieldsStoredNull_witness :
    (sqlitePostPersonas (fun _ => false) c10sdb (some "Zoe") (some " ") (some " ") (some " ")
        ≠ .error "AVATAR_URL_INVALID"
     ∧ ∀ db2 i, sqlitePostPersonas (fun _ => false) c10sdb (some "Zoe") (some " ") (some " ")
           (some " ") = .ok (db2, i) →
         ∃ p, p ∈ db2.personas ∧ p.id = i ∧ p.avatar_url = none ∧ p.bio = none ∧ p.creator = none)
    ∧ (kvPostPersonas (fun _ => false) c10kdb (some "Zoe") (some " ") (some " ") (some " ") 5
        ≠ .error "AVATAR_URL_INVALID"
     ∧ ∀ db2 i, kvPostPersonas (fun _ => false) c10kdb (some "Zoe") (some " ") (some " ")
           (some " ") 5 = .ok (db2, i) →
         ∃ p, p ∈ db2.personas ∧ p.id = i ∧ p.avatar_url = none ∧ p.bio = none ∧ p.creator = none)
    ∧ (sqlitePostPosts (fun _ => false) c10sdb (some "Bob") (some "hi") (some " ") 6
        ≠ .error "IMAGE_URL_INVALID"
     ∧ ∀ db2 i, sqlitePostPosts (fun _ => false) c10sdb (some "Bob") (some "hi") (some " ") 6
           = .ok (db2, i) →
         ∃ p, p ∈ db2.posts ∧ p.id = i ∧ p.image_url = none)
    ∧ (kvPostPosts (fun _ => false) c10kdb (some "Bob") (some "hi") (some " ") 7
        ≠ .error "IMAGE_URL_INVALID"
     ∧ ∀ db2 i, kvPostPosts (fun _ => false) c10kdb (some "Bob") (some "hi") (some " ") 7
           = .ok (db2, i) →
         ∃ p, p ∈ db2.posts ∧ p.id = i ∧ p.image_url = none) :=
  emptyOptionalFieldsStoredNull (fun _ => false) (fun _ => false) (fun _ => false) (fun _ => false)
    c10sdb c10sdb c10kdb c10kdb (some "Zoe") (some "Zoe") (some "Bob") (some "Bob")
    (some "hi") (some "hi") (some " ") (some " ") (some " ") (some " ") 5 6 7
    (by decide) (by decide) (by decide) (by decide)

/-- Two members of a list with pairwise-distinct keys and equal keys are the
same member. -/
theorem eq_of_pairwise_ne {α : Type} (f : α → Nat) {l : List α}
    (h : l.Pairwise (fun a b => f a ≠ f b)) {a b : α}
    (ha : a ∈ l) (hb : b ∈ l) (hab : f a = f b) : a = b := by
  induction l with
  | nil => cases ha
  | cons x xs ih =>
    cases h with
    | cons hx hxs =>
      rcases List.mem_cons.mp ha with rfl | ha2
      · rcases List.mem_cons.mp hb with rfl | hb2
        · rfl
        · exact absurd hab (hx b hb2)
      · rcases List.mem_cons.mp hb with rfl | hb2
        · exact absurd hab.symm (hx a ha2)
        · exact ih hxs ha2 hb2

/-- The value of the sqlite detail read on a stored live post. -/
theorem sqliteGetPost_ok (sdb : SqliteDB) (id : Nat) (q : Post)
    (hfind : sdb.posts.find? (fun p => p.id == id) = some q) (hdel : q.deleted_at = none) :
    sqliteGetPost sdb id = .ok (annotateDetailSql sdb.personas q,
      sortByLe commentLexLe ((sdb.comments.filter
        (fun c => c.post_id == id && c.deleted_at.isNone)).map
        (annotateCommentSql sdb.personas))) := by
  simp [sqliteGetPost, hfind, hdel]

/-- The value of the key-value detail read on a stored live post. -/
theorem kvGetPost_ok (kdb : KvDB) (id : Nat) (q : Post)
    (hfind : kdb.posts.find? (fun p => p.id == id) = some q) (hdel : q.deleted_at = none) :
    kvGetPost kdb id = .ok (annotateDetailKv kdb q,
      sortByLe kvCommentNewLe ((((sortByLe commentIdLe kdb.comments).filter
        (fun c => c.post_id == id)).filter (fun c => c.deleted_at.isNone)).map
        (annotateCommentKv kdb.personas))) := by
  simp [kvGetPost, hfind, hdel]

/-- Claim C7: both detail reads fail NOT_FOUND exactly when no live post has
the requested id (assuming the stored post ids are pairwise distinct), and on
success return exactly the live comments of the post, ordered by created_at
ascending with ties broken by id ascending. -/
theorem postDetailSpec (sdb : SqliteDB) (kdb : KvDB) (id1 id2 : Nat)
    (hids1 : sdb.posts.Pairwise (fun a b => a.id ≠ b.id))
    (hids2 : kdb.posts.Pairwise (fun a b => a.id ≠ b.id)) :
    (sqliteGetPost sdb id1 = .error "NOT_FOUND" ↔
       ¬ ∃ p, p ∈ sdb.posts ∧ p.id = id1 ∧ p.deleted_at = none)
    ∧ (∀ pv cs, sqliteGetPost sdb id1 = .ok (pv, cs) →
        List.Perm cs ((sdb.comments.filter (fun c => c.post_id == id1 && c.deleted_at.isNone)).map
          (annotateCommentSql sdb.personas))
        ∧ cs.Pairwise (fun a b => a.created_at < b.created_at ∨
            (a.created_at = b.created_at ∧ a.id ≤ b.id)))
    ∧ (kvGetPost kdb id2 = .error "NOT_FOUND" ↔
       ¬ ∃ p, p ∈ kdb.posts ∧ p.id = id2 ∧ p.deleted_at = none)
    ∧ (∀ pv cs, kvGetPost kdb id2 = .ok (pv, cs) →
        List.Perm cs ((kdb.comments.filter (fun c => c.post_id == id2 && c.deleted_at.isNone)).map
          (annotateCommentKv kdb.personas))
        ∧ cs.Pairwise (fun a b => a.created_at < b.created_at ∨
            (a.created_at = b.created_at ∧ a.id ≤ b.id))) := by
  refine ⟨?_, ?_, ?_, ?_⟩
  · constructor
    · intro herr
      rintro ⟨p, hpmem, hpid, hplive⟩
      cases hfind : sdb.posts.find? (fun q => q.id == id1) with
      | none =>
        have hnp := List.find?_eq_none.mp hfind p hpmem
        simp [hpid] at hnp
      | some q =>
        have hqid : q.id = id1 := by simpa using List.find?_some hfind
        have hqmem := List.mem_of_find?_eq_some hfind
        have hpq : p = q := eq_of_pairwise_ne Post.id hids1 hpmem hqmem (by rw [hpid, hqid])
        have hqlive : q.deleted_at = none := hpq ▸ hplive
        rw [sqliteGetPost_ok sdb id1 q hfind hqlive] at herr
        exact absurd herr (by simp)
    · intro hno
      cases hfind : sdb.posts.find? (fun q => q.id == id1) with
      | none => simp [sqliteGetPost, hfind]
      | some q =>
        have hqid : q.id = id1 := by simpa using List.find?_some hfind
        have hqmem := List.mem_of_find?_eq_some hfind
        cases hdel : q.deleted_at with
        | none => exact absurd ⟨q, hqmem, hqid, hdel⟩ hno
        | some s => simp [sqliteGetPost, hfind, hdel]
  · intro pv cs hok
    cases hfind : sdb.posts.find? (fun q => q.id == id1) with
    | none => simp [sqliteGetPost, hfind] at hok
    | some q =>
      cases hdel : q.deleted_at with
      | some s => simp [sqliteGetPost, hfind, hdel] at hok
      | none =>
        rw [sqliteGetPost_ok sdb id1 q hfind hdel] at hok
        obtain ⟨h1, h2⟩ := Prod.mk.inj (Except.ok.inj hok)
        subst h2
        constructor
        · exact sortByLe_perm _ _
        · exact (pairwise_sortByLe commentLexLe
            (by intro a b; simp [commentLexLe]; omega)
            (by intro a b c; simp [commentLexLe]; omega)
            ((sdb.comments.filter (fun c => c.post_id == id1 && c.deleted_at.isNone)).map
              (annotateCommentSql sdb.personas))).imp
            (fun hab => by simpa [commentLexLe] using hab)
  · constructor
    · intro herr
      rintro ⟨p, hpmem, hpid, hplive⟩
      cases hfind : kdb.posts.find? (fun q => q.id == id2) with
      | none =>
        have hnp := List.find?_eq_none.mp hfind p hpmem
        simp [hpid] at hnp
      | some q =>
        have hqid : q.id = id2 := by simpa using List.find?_some hfind
        have hqmem := List.mem_of_find?_eq_some hfind
        have hpq : p = q := eq_of_pairwise_ne Post.id hids2 hpmem hqmem (by rw [hpid, hqid])
        have hqlive : q.deleted_at = none := hpq ▸ hplive
        rw [kvGetPost_ok kdb id2 q hfind hqlive] at herr
        exact absurd herr (by simp)
    · intro hno
      cases hfind : kdb.posts.find? (fun q => q.id == id2) with
      | none => simp [kvGetPost, hfind]
      | some q =>
        have hqid : q.id = id2 := by simpa using List.find?_some hfind
        have hqmem := List.mem_of_find?_eq_some hfind
        cases hdel : q.deleted_at with
        | none => exact absurd ⟨q, hqmem, hqid, hdel⟩ hno
        | some s => simp [kvGetPost, hfind, hdel]
  · intro pv cs hok
    cases hfind : kdb.posts.find? (fun q => q.id == id2) with
    | none => simp [kvGetPost, hfind] at hok
    | some q =>
      cases hdel : q.deleted_at with
      | some s => simp [kvGetPost, hfind, hdel] at hok
      | none =>
        rw [kvGetPost_ok kdb id2 q hfind hdel] at hok
        obtain ⟨h1, h2⟩ := Prod.mk.inj (Except.ok.inj hok)
        subst h2
        constructor
        · refine (sortByLe_perm _ _).trans ?_
          refine List.Perm.map _ ?_
          have h3 : List.Perm (sortByLe commentIdLe kdb.comments) kdb.comments :=
            sortByLe_perm _ _
          have h4 := (h3.filter (fun c => c.post_id == id2)).filter (fun c => c.deleted_at.isNone)
          refine h4.trans ?_
          rw [List.filter_filter]
          have hcomm : kdb.comments.filter (fun a => a.deleted_at.isNone && a.post_id == id2)
              = kdb.comments.filter (fun c => c.post_id == id2 && c.deleted_at.isNone) := by
            apply List.filter_congr
            intro c _
            rw [Bool.and_comm]
          rw [hcomm]
        · have hbase := pairwise_sortByLe commentIdLe
            (by intro a b; simp [commentIdLe]; omega)
            (by intro a b c; simp [commentIdLe]; omega) kdb.comments
          have hbase2 : (sortByLe commentIdLe kdb.comments).Pairwise (fun a b => a.id ≤ b.id) :=
            hbase.imp (fun hab => by simpa [commentIdLe] using hab)
          have hf2 := (hbase2.filter (fun c => c.post_id == id2)).filter
            (fun c => c.deleted_at.isNone)
          have hmap : ((((sortByLe commentIdLe kdb.comments).filter
              (fun c => c.post_id == id2)).filter (fun c => c.deleted_at.isNone)).map
              (annotateCommentKv kdb.personas)).Pairwise
              (fun a b : CommentView => a.id ≤ b.id) :=
            List.Pairwise.map _ (fun a b hab => by simpa [annotateCommentKv] using hab) hf2
          exact pairwise_sortByLe_lex (fun v : CommentView => v.created_at) (fun v => v.id)
            kvCommentNewLe (by intro a b; simp [kvCommentNewLe]) _ hmap

/-- A sqlite store with one live post, two live comments tied on created_at,
and one deleted comment, for the C7 witness. -/
def c7sdb : SqliteDB :=
  ⟨[], [⟨10, none, "p", none, 1, none⟩],
   [⟨2, 10, none, "b", none, 5, none⟩, ⟨1, 10, none, "a", none, 5, none⟩,
    ⟨3, 10, none, "x", none, 4, some 9⟩], 1, 11, 4⟩

/-- The key-value analogue of c7sdb for the C7 witness. -/
def c7kdb : KvDB :=
  ⟨[], [], [⟨10, some 1, "p", none, 1, none⟩],
   [⟨2, 10, some 1, "b", none, 5, none⟩, ⟨1, 10, some 1, "a", none, 5, none⟩,
    ⟨3, 10, some 1, "x", none, 4, some 9⟩]⟩

/-- Witness for the C7 theorem on the stores above. -/
theorem postDetailSpec_witness :
    (sqliteGetPost c7sdb 10 = .error "NOT_FOUND" ↔
       ¬ ∃ p, p ∈ c7sdb.posts ∧ p.id = 10 ∧ p.deleted_at = none)
    ∧ (∀ pv cs, sqliteGetPost c7sdb 10 = .ok (pv, cs) →
        List.Perm cs ((c7sdb.comments.filter (fun c => c.post_id == 10 && c.deleted_at.isNone)).map
          (annotateCommentSql c7sdb.personas))
        ∧ cs.Pairwise (fun a b => a.created_at < b.created_at ∨
            (a.created_at = b.created_at ∧ a.id ≤ b.id)))
    ∧ (kvGetPost c7kdb 10 = .error "NOT_FOUND" ↔
       ¬ ∃ p, p ∈ c7kdb.posts ∧ p.id = 10 ∧ p.deleted_at = none)
    ∧ (∀ pv cs, kvGetPost c7kdb 10 = .ok (pv, cs) →
        List.Perm cs ((c7kdb.comments.filter (fun c => c.post_id == 10 && c.deleted_at.isNone)).map
          (annotateCommentKv c7kdb.personas))
        ∧ cs.Pairwise (fun a b => a.created_at < b.created_at ∨
            (a.created_at = b.created_at ∧ a.id ≤ b.id))) :=
  postDetailSpec c7sdb c7kdb 10 10 (by decide) (by decide)

/-! ## Reachable key-value stores and the live-comments invariant -/

/-- A member of the list after a db.set on a comment key is the written
record or an old member. -/
theorem mem_of_mem_kvSetComment {l : List Comment} {c d : Comment}
    (hd : d ∈ kvSetComment l c) : d = c ∨ d ∈ l := by
  rw [kvSetComment] at hd
  split at hd
  · rcases List.mem_map.mp hd with ⟨e, he, hde⟩
    by_cases h : e.post_id = c.post_id ∧ e.id = c.id
    · rw [if_pos h] at hde
      exact Or.inl hde.symm
    · rw [if_neg h] at hde
      exact Or.inr (hde ▸ he)
  · rcases List.mem_append.mp hd with h | h
    · exact Or.inr h
    · exact Or.inl (List.mem_singleton.mp h)

/-- A successful key-value persona creation leaves the comments unchanged. -/
theorem kvPostPersonas_comments (u : String → Bool) (db db2 : KvDB)
    (nm av bi cr : Option String) (t i : Nat)
    (h : kvPostPersonas u db nm av bi cr t = .ok (db2, i)) : db2.comments = db.comments := by
  by_cases h1 : jsTrim (orEmpty nm) = ""
  · simp [kvPostPersonas, h1] at h
  · by_cases h2 : jsTrim (orEmpty nm) = "未命名"
    · simp [kvPostPersonas, h1, h2] at h
    · by_cases h3 : numTruthy (kvGetName db.personaNames (jsLower (jsTrim (orEmpty nm)))) = true
      · simp [kvPostPersonas, h1, h2, h3] at h
      · rcases hsc : strToOpt (jsTrim (orEmpty av)) with _ | a
        · simp only [kvPostPersonas, if_neg h1, if_neg h2, if_neg h3, hsc] at h
          obtain ⟨h4, h5⟩ := Prod.mk.inj (Except.ok.inj h)
          subst h4
          rfl
        · by_cases h5 : isProbablyHttpUrl u a = false
          · simp only [kvPostPersonas, if_neg h1, if_neg h2, if_neg h3, hsc, if_pos h5] at h
            exact absurd h (by simp)
          · simp only [kvPostPersonas, if_neg h1, if_neg h2, if_neg h3, hsc, if_neg h5] at h
            obtain ⟨h4, h6⟩ := Prod.mk.inj (Except.ok.inj h)
            subst h4
            rfl

/-- A successful key-value persona deletion leaves the comments unchanged. -/
theorem kvDeletePersona_comments (db db2 : KvDB) (id t : Nat)
    (h : kvDeletePersona db id t = .ok db2) : db2.comments = db.comments := by
  rcases hfind : db.personas.find? (fun p => p.id == id) with _ | p
  · simp [kvDeletePersona, hfind] at h
  · simp only [kvDeletePersona, hfind] at h
    have h4 := Except.ok.inj h
    subst h4
    rfl

/-- A successful key-value post creation leaves the comments unchanged. -/
theorem kvPostPosts_comments (u : String → Bool) (db db2 : KvDB)
    (pn ct img : Option String) (t i : Nat)
    (h : kvPostPosts u db pn ct img t = .ok (db2, i)) : db2.comments = db.comments := by
  by_cases h1 : jsTrim (orEmpty pn) = "" ∨ jsTrim (orEmpty ct) = ""
  · simp only [kvPostPosts, if_pos h1] at h
    exact absurd h (by simp)
  · by_cases h2 : jsTrim (orEmpty img) ≠ "" ∧ isProbablyHttpUrl u (jsTrim (orEmpty img)) = false
    · simp only [kvPostPosts, if_neg h1, if_pos h2] at h
      exact absurd h (by simp)
    · by_cases h3 : numTruthy (kvGetName db.personaNames (jsLower (jsTrim (orEmpty pn)))) = false
      · simp only [kvPostPosts, if_neg h1, if_neg h2, if_pos h3] at h
        exact absurd h (by simp)
      · simp only [kvPostPosts, if_neg h1, if_neg h2, if_neg h3] at h
        obtain ⟨h4, h5⟩ := Prod.mk.inj (Except.ok.inj h)
        subst h4
        rfl

/-- A successful key-value post deletion filters the comments of that post. -/
theorem kvDeletePost_comments (db db2 : KvDB) (id t : Nat)
    (h : kvDeletePost db id t = .ok db2) :
    db2.comments = db.comments.filter (fun c => !(c.post_id == id)) := by
  rcases hfind : db.posts.find? (fun p => p.id == id) with _ | p
  · simp [kvDeletePost, hfind] at h
  · simp only [kvDeletePost, hfind] at h
    have h4 := Except.ok.inj h
    subst h4
    rfl

/-- A successful key-value comment creation writes one live comment record. -/
theorem kvPostComments_comments (db db2 : KvDB) (pid : Option Nat) (pn ct : Option String)
    (r : Option Nat) (t i : Nat) (h : kvPostComments db pid pn ct r t = .ok (db2, i)) :
    db2.comments = kvSetComment db.comments ⟨t, pid.getD 0,
      kvGetName db.personaNames (jsLower (jsTrim (orEmpty pn))), jsTrim (orEmpty ct), r, t, none⟩ := by
  by_cases h1 : numTruthy pid = false ∨ jsTrim (orEmpty pn) = "" ∨ jsTrim (orEmpty ct) = ""
  · simp only [kvPostComments, if_pos h1] at h
    exact absurd h (by simp)
  · rcases hfind : db.posts.find? (fun p => p.id == pid.getD 0) with _ | post
    · simp only [kvPostComments, if_neg h1, hfind] at h
      exact absurd h (by simp)
    · by_cases h2 : post.deleted_at.isSome = true
      · simp only [kvPostComments, if_neg h1, hfind, if_pos h2] at h
        exact absurd h (by simp)
      · by_cases h3 : numTruthy (kvGetName db.personaNames (jsLower (jsTrim (orEmpty pn)))) = false
        · simp only [kvPostComments, if_neg h1, hfind, if_neg h2, if_pos h3] at h
          exact absurd h (by simp)
        · simp only [kvPostComments, if_neg h1, hfind, if_neg h2, if_neg h3] at h
          obtain ⟨h4, h5⟩ := Prod.mk.inj (Except.ok.inj h)
          subst h4
          rfl

/-- The key-value stores reachable from the empty store through the five
mutating handlers. -/
inductive KvReach : KvDB → Prop where
  | start : KvReach kvEmpty
  | stepCreatePersona (u : String → Bool) (db db2 : KvDB) (nm av bi cr : Option String)
      (t i : Nat) : KvReach db → kvPostPersonas u db nm av bi cr t = .ok (db2, i) → KvReach db2
  | stepDeletePersona (db db2 : KvDB) (id t : Nat) :
      KvReach db → kvDeletePersona db id t = .ok db2 → KvReach db2
  | stepCreatePost (u : String → Bool) (db db2 : KvDB) (pn ct img : Option String)
      (t i : Nat) : KvReach db → kvPostPosts u db pn ct img t = .ok (db2, i) → KvReach db2
  | stepDeletePost (db db2 : KvDB) (id t : Nat) :
      KvReach db → kvDeletePost db id t = .ok db2 → KvReach db2
  | stepCreateComment (db db2 : KvDB) (pid : Option Nat) (pn ct : Option String)
      (r : Option Nat) (t i : Nat) :
      KvReach db → kvPostComments db pid pn ct r t = .ok (db2, i) → KvReach db2

/-- Every comment stored in a reachable key-value store is live: the kv
variant never stores a soft-deleted comment, it only removes records. -/
theorem kvReach_commentsLive {db : KvDB} (h : KvReach db) :
    ∀ c ∈ db.comments, c.deleted_at = none := by
  induction h with
  | start =>
    intro c hc
    simp [kvEmpty] at hc
  | stepCreatePersona u db0 db2 nm av bi cr t i _ heq ih =>
    intro d hd
    rw [kvPostPersonas_comments u db0 db2 nm av bi cr t i heq] at hd
    exact ih d hd
  | stepDeletePersona db0 db2 id t _ heq ih =>
    intro d hd
    rw [kvDeletePersona_comments db0 db2 id t heq] at hd
    exact ih d hd
  | stepCreatePost u db0 db2 pn ct img t i _ heq ih =>
    intro d hd
    rw [kvPostPosts_comments u db0 db2 pn ct img t i heq] at hd
    exact ih d hd
  | stepDeletePost db0 db2 id t _ heq ih =>
    intro d hd
    rw [kvDeletePost_comments db0 db2 id t heq] at hd
    exact ih d (List.mem_of_mem_filter hd)
  | stepCreateComment db0 db2 pid pn ct r t i _ heq ih =>
    intro d hd
    rw [kvPostComments_comments db0 db2 pid pn ct r t i heq] at hd
    rcases mem_of_mem_kvSetComment hd with rfl | hd2
    · rfl
    · exact ih d hd2

/-- Claim C5: in both variants the post listing is a permutation of the
annotated live posts (so only non-deleted posts appear), every listed
reply_count equals the number of live comments of that post (for the
key-value variant on its reachable stores), sort hot orders by reply_count
descending with ties broken by created_at descending, and any other sort
value (in particular the default new) orders by created_at descending. -/
theorem postListingSpec (sdb : SqliteDB) (kdb : KvDB) (sort1 sort2 : String)
    (hreach : KvReach kdb) :
    (List.Perm (sqliteGetPosts sdb sort1)
        ((sdb.posts.filter (fun p => p.deleted_at.isNone)).map (annotatePostSql sdb))
     ∧ (∀ v ∈ sqliteGetPosts sdb sort1, v.reply_count = liveCommentCount sdb.comments v.id)
     ∧ (sort1 = "hot" → (sqliteGetPosts sdb sort1).Pairwise (fun a b =>
          b.reply_count < a.reply_count ∨
            (b.reply_count = a.reply_count ∧ b.created_at ≤ a.created_at)))
     ∧ (sort1 ≠ "hot" → (sqliteGetPosts sdb sort1).Pairwise (fun a b =>
          b.created_at ≤ a.created_at)))
    ∧ (List.Perm (kvGetPosts kdb sort2)
        ((kdb.posts.filter (fun p => p.deleted_at.isNone)).map (annotatePostKv kdb))
     ∧ (∀ v ∈ kvGetPosts kdb sort2, v.reply_count = liveCommentCount kdb.comments v.id)
     ∧ (sort2 = "hot" → (kvGetPosts kdb sort2).Pairwise (fun a b =>
          b.reply_count < a.reply_count ∨
            (b.reply_count = a.reply_count ∧ b.created_at ≤ a.created_at)))
     ∧ (sort2 ≠ "hot" → (kvGetPosts kdb sort2).Pairwise (fun a b =>
          b.created_at ≤ a.created_at))) := by
  have hpermS : List.Perm (sqliteGetPosts sdb sort1)
      ((sdb.posts.filter (fun p => p.deleted_at.isNone)).map (annotatePostSql sdb)) := by
    simp only [sqliteGetPosts]
    split
    · exact sortByLe_perm _ _
    · exact sortByLe_perm _ _
  have hbaseK : List.Perm ((sortByLe postIdLe kdb.posts).filter (fun p => p.deleted_at.isNone))
      (kdb.posts.filter (fun p => p.deleted_at.isNone)) := (sortByLe_perm _ _).filter _
  have hpermK : List.Perm (kvGetPosts kdb sort2)
      ((kdb.posts.filter (fun p => p.deleted_at.isNone)).map (annotatePostKv kdb)) := by
    simp only [kvGetPosts]
    split
    · exact (sortByLe_perm _ _).trans (hbaseK.map (annotatePostKv kdb))
    · exact (sortByLe_perm _ _).trans (hbaseK.map (annotatePostKv kdb))
  have hlive := kvReach_commentsLive hreach
  refine ⟨⟨hpermS, ?_, ?_, ?_⟩, ⟨hpermK, ?_, ?_, ?_⟩⟩
  · intro v hv
    rcases List.mem_map.mp (hpermS.mem_iff.mp hv) with ⟨p, _, rfl⟩
    simp [annotatePostSql]
  · intro hs
    have hform : sqliteGetPosts sdb sort1 = sortByLe postHotLe
        ((sdb.posts.filter (fun p => p.deleted_at.isNone)).map (annotatePostSql sdb)) := by
      simp [sqliteGetPosts, hs]
    rw [hform]
    exact (pairwise_sortByLe postHotLe
        (by intro a b; simp [postHotLe]; omega)
        (by intro a b c; simp [postHotLe]; omega) _).imp
      (fun hab => by simpa [postHotLe] using hab)
  · intro hs
    have hform : sqliteGetPosts sdb sort1 = sortByLe postNewLe
        ((sdb.posts.filter (fun p => p.deleted_at.isNone)).map (annotatePostSql sdb)) := by
      simp [sqliteGetPosts, hs]
    rw [hform]
    exact (pairwise_sortByLe postNewLe
        (by intro a b; simp [postNewLe]; omega)
        (by intro a b c; simp [postNewLe]; omega) _).imp
      (fun hab => by simpa [postNewLe] using hab)
  · intro v hv
    rcases List.mem_map.mp (hpermK.mem_iff.mp hv) with ⟨p, _, rfl⟩
    have hfc : kdb.comments.filter (fun c => c.post_id == p.id)
        = kdb.comments.filter (fun c => c.post_id == p.id && c.deleted_at.isNone) :=
      List.filter_congr (fun c hc => by rw [hlive c hc]; simp)
    simp only [annotatePostKv, liveCommentCount]
    rw [hfc]
  · intro hs
    have hform : kvGetPosts kdb sort2 = sortByLe postHotLe
        (((sortByLe postIdLe kdb.posts).filter (fun p => p.deleted_at.isNone)).map
          (annotatePostKv kdb)) := by
      simp [kvGetPosts, hs]
    rw [hform]
    exact (pairwise_sortByLe postHotLe
        (by intro a b; simp [postHotLe]; omega)
        (by intro a b c; simp [postHotLe]; omega) _).imp
      (fun hab => by simpa [postHotLe] using hab)
  · intro hs
    have hform : kvGetPosts kdb sort2 = sortByLe postNewLe
        (((sortByLe postIdLe kdb.posts).filter (fun p => p.deleted_at.isNone)).map
          (annotatePostKv kdb)) := by
      simp [kvGetPosts, hs]
    rw [hform]
    exact (pairwise_sortByLe postNewLe
        (by intro a b; simp [postNewLe]; omega)
        (by intro a b c; simp [postNewLe]; omega) _).imp
      (fun hab => by simpa [postNewLe] using hab)

/-- A sqlite store with two live posts, one deleted post, and live plus
deleted comments, for the C5 witness. -/
def c5sdb : SqliteDB :=
  ⟨[], [⟨1, none, "a", none, 5, none⟩, ⟨2, none, "b", none, 3, none⟩,
    ⟨3, none, "c", none, 9, some 4⟩],
   [⟨7, 1, none, "c1", none, 6, none⟩, ⟨8, 1, none, "c2", none, 6, some 2⟩], 1, 4, 9⟩

/-- The key-value store after creating the persona Bob at time 1. -/
def c5kdb1 : KvDB := ⟨[⟨1, "Bob", none, none, none, none⟩], [("bob", 1)], [], []⟩

/-- c5kdb1 after Bob posts at time 2. -/
def c5kdb2 : KvDB :=
  ⟨[⟨1, "Bob", none, none, none, none⟩], [("bob", 1)], [⟨2, some 1, "hi", none, 2, none⟩], []⟩

/-- c5kdb2 after Bob comments on the post at time 3. -/
def c5kdb3 : KvDB :=
  ⟨[⟨1, "Bob", none, none, none, none⟩], [("bob", 1)], [⟨2, some 1, "hi", none, 2, none⟩],
   [⟨3, 2, some 1, "yo", none, 3, none⟩]⟩

/-- The store c5kdb3 is reachable through the handlers. -/
theorem c5kdb3_reach : KvReach c5kdb3 :=
  KvReach.stepCreateComment c5kdb2 c5kdb3 (some 2) (some "Bob") (some "yo") none 3 3
    (KvReach.stepCreatePost (fun _ => true) c5kdb1 c5kdb2 (some "Bob") (some "hi") none 2 2
      (KvReach.stepCreatePersona (fun _ => true) kvEmpty c5kdb1 (some "Bob") none none none 1 1
        KvReach.start rfl)
      rfl)
    rfl

/-- Witness for the C5 theorem: the hot listing of the stores above. -/
theorem postListingSpec_witness :
    (List.Perm (sqliteGetPosts c5sdb "hot")
        ((c5sdb.posts.filter (fun p => p.deleted_at.isNone)).map (annotatePostSql c5sdb))
     ∧ (∀ v ∈ sqliteGetPosts c5sdb "hot", v.reply_count = liveCommentCount c5sdb.comments v.id)
     ∧ ("hot" = "hot" → (sqliteGetPosts c5sdb "hot").Pairwise (fun a b =>
          b.reply_count < a.reply_count ∨
            (b.reply_count = a.reply_count ∧ b.created_at ≤ a.created_at)))
     ∧ (("hot" : String) ≠ "hot" → (sqliteGetPosts c5sdb "hot").Pairwise (fun a b =>
          b.created_at ≤ a.created_at)))
    ∧ (List.Perm (kvGetPosts c5kdb3 "hot")
        ((c5kdb3.posts.filter (fun p => p.deleted_at.isNone)).map (annotatePostKv c5kdb3))
     ∧ (∀ v ∈ kvGetPosts c5kdb3 "hot", v.reply_count = liveCommentCount c5kdb3.comments v.id)
     ∧ ("hot" = "hot" → (kvGetPosts c5kdb3 "hot").Pairwise (fun a b =>
          b.reply_count < a.reply_count ∨
            (b.reply_count = a.reply_count ∧ b.created_at ≤ a.created_at)))
     ∧ (("hot" : String) ≠ "hot" → (kvGetPosts c5kdb3 "hot").Pairwise (fun a b =>
          b.created_at ≤ a.created_at))) :=
  postListingSpec c5sdb c5kdb3 "hot" "hot" c5kdb3_reach

end Forum

